import Mathlib

/-!
# Intl runtime functions of `deps/v8/src/runtime/runtime-intl.cc`

A shallow embedding of the runtime handlers of the file.  Every handler is a
function from a machine state and an argument vector to `Option (Object × Machine)`:

* `none` is a failed `CHECK` (the process aborts, nothing is returned);
* `some (v, m)` is a normal return of the raw object `v`, leaving state `m`.
  The value `Object.oddball Oddball.exception` is the failure sentinel
  `ReadOnlyRoots(isolate).exception()`.

The routines the handlers delegate to (`Intl::…`, `JSListFormat::…`,
`DateFormat::…`, `JSObject::New`, …) are not part of the file; they are the
fields of a `Library` record and every theorem quantifies over that record.
A call of such a routine transforms the isolate and is recorded in the machine's
trace, as is every `Isolate::Throw` performed by a handler.

The engine's object model, its macros and the few primitives whose effect the
handlers rely on (embedder fields, global and eternal handles, property addition,
C-string conversion) are declared outside the file as well; they are modelled here
on a heap of addressed objects and marked as such in their documentation.
-/

namespace V8

/-! ## Values -/

/-- Modelled from the spec: instance types of heap objects, as far as the handlers distinguish
them. -/
inductive InstanceType
  | SYMBOL_TYPE
  | HEAP_NUMBER_TYPE
  | FIXED_ARRAY_TYPE
  | JS_PROXY_TYPE
  | JS_OBJECT_TYPE
  | JS_ARRAY_TYPE
  | JS_FUNCTION_TYPE
  | JS_INTL_COLLATOR_TYPE
  | JS_INTL_LIST_FORMAT_TYPE
  | JS_INTL_NUMBER_FORMAT_TYPE
  | JS_INTL_PLURAL_RULES_TYPE
  deriving DecidableEq, Repr

/-- Modelled from the spec: oddball kinds; `exception` is the failure sentinel of the runtime
calling convention. -/
inductive Oddball
  | undefined
  | null
  | true_value
  | false_value
  | exception
  deriving DecidableEq, Repr

/-- Modelled from the spec: a heap object reference: what a `Handle<JSObject>` (or a handle of a
subtype) points to. -/
structure HeapObject where
  instance_type : InstanceType
  address : Nat
  deriving DecidableEq, Repr

/-- Modelled from the spec: a tagged value (`Object*`): a small integer, an oddball, a string or
another heap object. -/
inductive Object
  | smi (value : Int)
  | oddball (kind : Oddball)
  | string (chars : String)
  | heap (ref : HeapObject)
  deriving DecidableEq, Repr

/-- Modelled from the spec: subtype test `IsJSObject` on instance types. -/
def InstanceType.IsJSObject : InstanceType → Bool
  | .JS_OBJECT_TYPE => true
  | .JS_ARRAY_TYPE => true
  | .JS_FUNCTION_TYPE => true
  | .JS_INTL_COLLATOR_TYPE => true
  | .JS_INTL_LIST_FORMAT_TYPE => true
  | .JS_INTL_NUMBER_FORMAT_TYPE => true
  | .JS_INTL_PLURAL_RULES_TYPE => true
  | _ => false

/-- Modelled from the spec: subtype test `IsJSReceiver` on instance types: proxies and JS
objects. -/
def InstanceType.IsJSReceiver (t : InstanceType) : Bool :=
  t == .JS_PROXY_TYPE || t.IsJSObject

namespace Object

/-- Modelled from the spec: the failure sentinel `ReadOnlyRoots(isolate).exception()`. -/
def exception : Object := .oddball .exception

/-- Modelled from the spec: the value `ReadOnlyRoots(isolate).undefined_value()`. -/
def undefined_value : Object := .oddball .undefined

/-- Modelled from the spec: type test `Object::IsObject`, true of every value. -/
def IsObject (_ : Object) : Bool := true

/-- Modelled from the spec: type test `Object::IsSmi`. -/
def IsSmi : Object → Bool
  | .smi _ => true
  | _ => false

/-- Modelled from the spec: type test `Object::IsString`. -/
def IsString : Object → Bool
  | .string _ => true
  | _ => false

/-- Modelled from the spec: type test `Object::IsBoolean`. -/
def IsBoolean : Object → Bool
  | .oddball .true_value => true
  | .oddball .false_value => true
  | _ => false

/-- Modelled from the spec: test `Object::IsTrue`. -/
def IsTrue : Object → Bool
  | .oddball .true_value => true
  | _ => false

/-- Modelled from the spec: instance-type test on a tagged value: false of everything that is
not a heap object. -/
def HasInstanceType (p : InstanceType → Bool) : Object → Bool
  | .heap r => p r.instance_type
  | _ => false

/-- Modelled from the spec: type test `Object::IsName`: strings and symbols. -/
def IsName : Object → Bool
  | .string _ => true
  | .heap r => r.instance_type == .SYMBOL_TYPE
  | _ => false

/-- Modelled from the spec: type test `Object::IsJSReceiver`. -/
def IsJSReceiver (o : Object) : Bool := o.HasInstanceType InstanceType.IsJSReceiver

/-- Modelled from the spec: type test `Object::IsJSObject`. -/
def IsJSObject (o : Object) : Bool := o.HasInstanceType InstanceType.IsJSObject

/-- Modelled from the spec: type test `Object::IsJSArray`. -/
def IsJSArray (o : Object) : Bool := o.HasInstanceType (· == .JS_ARRAY_TYPE)

/-- Modelled from the spec: type test `Object::IsJSFunction`. -/
def IsJSFunction (o : Object) : Bool := o.HasInstanceType (· == .JS_FUNCTION_TYPE)

/-- Modelled from the spec: type test `Object::IsJSCollator`. -/
def IsJSCollator (o : Object) : Bool := o.HasInstanceType (· == .JS_INTL_COLLATOR_TYPE)

/-- Modelled from the spec: type test `Object::IsJSListFormat`. -/
def IsJSListFormat (o : Object) : Bool := o.HasInstanceType (· == .JS_INTL_LIST_FORMAT_TYPE)

/-- Modelled from the spec: type test `Object::IsJSNumberFormat`. -/
def IsJSNumberFormat (o : Object) : Bool := o.HasInstanceType (· == .JS_INTL_NUMBER_FORMAT_TYPE)

/-- Modelled from the spec: type test `Object::IsJSPluralRules`. -/
def IsJSPluralRules (o : Object) : Bool := o.HasInstanceType (· == .JS_INTL_PLURAL_RULES_TYPE)

end Object

/-! ## Errors -/

/-- Modelled from the spec: message templates; only `kIncompatibleMethodReceiver` is used by the
handlers. -/
inductive MessageTemplate
  | kIncompatibleMethodReceiver
  | kOther (id : Nat)
  deriving DecidableEq, Repr

/-- Modelled from the spec: error constructors. -/
inductive ErrorKind
  | TypeError
  | RangeError
  | Error
  deriving DecidableEq, Repr

/-- Modelled from the spec: an error object: its constructor, its message template and the
template's arguments. -/
structure JSError where
  kind : ErrorKind
  template : MessageTemplate
  arg0 : Object
  arg1 : Object
  deriving DecidableEq, Repr

/-- Modelled from the spec: factory routine `NewTypeError(template, arg0, arg1)`. -/
def NewTypeError (template : MessageTemplate) (arg0 arg1 : Object) : JSError :=
  { kind := .TypeError, template := template, arg0 := arg0, arg1 := arg1 }

/-! ## Heap, handles and isolate -/

/-- Modelled from the spec: property attributes; `NONE` is the value the handlers pass. -/
inductive PropertyAttributes
  | NONE
  | OTHER (bits : Nat)
  deriving DecidableEq, Repr

/-- Modelled from the spec: one own property of a JS object. -/
structure Property where
  key : String
  value : Object
  attributes : PropertyAttributes
  deriving DecidableEq, Repr

/-- Modelled from the spec: the mutable content stored at a heap address: prototype (`none` is
null), own properties in insertion order, embedder fields (slot index to raw word) and the
element slots of a fixed array. -/
structure HeapData where
  prototype : Option Nat
  properties : List Property
  embedder_fields : Nat → Nat
  elements : List Object

/-- Modelled from the spec: weak callbacks that can be attached to a global handle. -/
inductive WeakCallback
  | DateFormat_DeleteDateFormat
  | other (id : Nat)
  deriving DecidableEq, Repr

/-- Modelled from the spec: kinds of weak callbacks. -/
inductive WeakCallbackType
  | kParameter
  | kInternalFields
  | kFinalizer
  deriving DecidableEq, Repr

/-- Modelled from the spec: the weakness record of a global handle node, set by
`GlobalHandles::MakeWeak`. -/
structure WeakInfo where
  parameter : Nat
  callback : WeakCallback
  type : WeakCallbackType
  deriving DecidableEq, Repr

/-- Modelled from the spec: a node of the global-handle table: the object it keeps and, if weak,
its callback. -/
structure GlobalNode where
  object : Object
  weak : Option WeakInfo
  deriving DecidableEq, Repr

/-- Modelled from the spec: indices of the singleton eternal handles. -/
inductive SingletonHandle
  | DATE_CACHE_VERSION
  deriving DecidableEq, Repr

/-- Modelled from the spec: the part of the isolate the handlers read or write. -/
structure Isolate where
  serializer_enabled : Bool
  pending_exception : Option JSError
  eternal_handles : SingletonHandle → Option HeapObject
  global_handles : List GlobalNode
  intl_date_time_format_function : Object
  intl_initialized_marker_symbol : Object
  heap : Nat → HeapData
  heap_top : Nat

/-- External routines that an execution can call. -/
inductive Routine
  | JSListFormat_FormatList
  | JSListFormat_FormatListToParts
  | Intl_CanonicalizeLanguageTag
  | Intl_AvailableLocalesOf
  | Intl_DefaultLocale
  | Intl_DefineWEProperty
  | Intl_IsObjectOfType
  | JSObject_SetProperty
  | JSObject_New
  | DateFormat_InitializeDateTimeFormat
  | JSDateTimeFormat_ResolvedOptions
  | JSNumberFormat_UnwrapNumberFormat
  | JSNumberFormat_ResolvedOptions
  | JSCollator_ResolvedOptions
  | Intl_ParseExtension
  | JSPluralRules_ResolvePlural
  | JSDateTimeFormat_ToDateTimeOptions
  | String_Flatten
  | ConvertToLower
  | ConvertToUpper
  | Intl_UnwrapReceiver
  deriving DecidableEq, Repr

/-- What the trace of an execution records: calls of external routines and the
errors a handler throws itself through `Isolate::Throw`. -/
inductive Event
  | call (r : Routine)
  | throw (e : JSError)
  deriving DecidableEq, Repr

/-- A machine state: the isolate and the trace of the execution so far. -/
structure Machine where
  isolate : Isolate
  trace : List Event

/-- The result of a routine that may fail: `none` is the empty `MaybeHandle` / `Nothing`. -/
abbrev MaybeHandle (α : Type) := Option α

/-- Modelled from the spec: a `std::map<std::string, std::string>`: entries in iteration order,
keys strictly increasing in the lexicographic order of their characters (hence distinct). -/
structure StdMap where
  entries : List (String × String)
  sorted : entries.Pairwise (fun a b => a.1.data < b.1.data)

/-- Modelled from the spec: the empty `std::map`. -/
def StdMap.empty : StdMap := ⟨[], List.Pairwise.nil⟩

/-- Modelled from the spec: language modes of a property store. -/
inductive LanguageMode
  | kSloppy
  | kStrict
  deriving DecidableEq, Repr

/-- The external routines the handlers delegate to.  Each takes the isolate and
returns its result together with the isolate it leaves.  Result types follow the use the
handlers make of them: a routine whose result goes through `RETURN_RESULT_OR_FAILURE`,
`ASSIGN_RETURN_FAILURE_ON_EXCEPTION` or `MAYBE_RETURN` may yield nothing, one whose result
is dereferenced directly always yields a handle; a yielded string or heap object is a
value of its own and never the failure sentinel.  `DateFormat_InitializeDateTimeFormat`
yields the address of the native formatter, 0 being the null pointer. -/
structure Library where
  JSListFormat_FormatList : Isolate → Object → Object → MaybeHandle String × Isolate
  JSListFormat_FormatListToParts :
    Isolate → Object → Object → MaybeHandle HeapObject × Isolate
  Intl_CanonicalizeLanguageTag : Isolate → Object → MaybeHandle String × Isolate
  Intl_AvailableLocalesOf : Isolate → Object → MaybeHandle HeapObject × Isolate
  Intl_DefaultLocale : Isolate → String × Isolate
  Intl_DefineWEProperty : Isolate → Object → Object → Object → Unit × Isolate
  Intl_IsObjectOfType : Isolate → Object → Int → Bool × Isolate
  JSObject_SetProperty :
    Isolate → Object → Object → Object → LanguageMode → MaybeHandle Object × Isolate
  JSObject_New : Isolate → Object → Object → MaybeHandle HeapObject × Isolate
  DateFormat_InitializeDateTimeFormat :
    Isolate → Object → Object → Object → MaybeHandle Nat × Isolate
  DateFormat_kSimpleDateFormatIndex : Nat
  JSDateTimeFormat_ResolvedOptions : Isolate → Object → MaybeHandle HeapObject × Isolate
  JSNumberFormat_UnwrapNumberFormat : Isolate → Object → MaybeHandle HeapObject × Isolate
  JSNumberFormat_ResolvedOptions : Isolate → HeapObject → HeapObject × Isolate
  JSCollator_ResolvedOptions : Isolate → Object → HeapObject × Isolate
  Intl_ParseExtension : Isolate → String → StdMap → StdMap × Isolate
  JSPluralRules_ResolvePlural : Isolate → Object → Object → MaybeHandle String × Isolate
  JSDateTimeFormat_ToDateTimeOptions :
    Isolate → Object → String → String → MaybeHandle HeapObject × Isolate
  String_ToCString : Object → String
  String_Flatten : Isolate → Object → String × Isolate
  ConvertToLower : Object → Isolate → MaybeHandle String × Isolate
  ConvertToUpper : Object → Isolate → MaybeHandle String × Isolate
  Intl_TypeFromInt : Int → Int
  Intl_UnwrapReceiver :
    Isolate → Object → Object → Int → Object → Bool → MaybeHandle HeapObject × Isolate

/-! ## Engine primitives used by the handlers -/

/-- Modelled from the spec: the terminator of a C string. -/
def NUL : Char := Char.ofNat 0

/-- Modelled from the spec: member `std::string::c_str`: the characters of the string followed
by a terminator. -/
def c_str (s : String) : List Char := s.data ++ [NUL]

/-- Modelled from the spec: factory routine `NewStringFromAsciiChecked(const char*)`: a string
of the characters up to the first terminator (the length is taken with `strlen`), one character
per byte. -/
def NewStringFromAsciiChecked (str : List Char) : String :=
  ⟨str.takeWhile (· != NUL)⟩

/-- Modelled from the spec: member `Heap::ToBoolean(bool)`. -/
def Heap.ToBoolean (condition : Bool) : Object :=
  if condition then .oddball .true_value else .oddball .false_value

/-- Modelled from the spec: factory routine `NewStringFromStaticChars` on a string literal. -/
def NewStringFromStaticChars (literal : String) : Object := .string literal

/-- Modelled from the spec: factory routine `NewJSObjectWithNullProto`: a new object at the top
of the heap, without prototype, properties or elements. -/
def NewJSObjectWithNullProto (iso : Isolate) : HeapObject × Isolate :=
  (⟨.JS_OBJECT_TYPE, iso.heap_top⟩,
   { iso with
     heap := Function.update iso.heap iso.heap_top
       { prototype := none, properties := [], embedder_fields := fun _ => 0, elements := [] }
     heap_top := iso.heap_top + 1 })

/-- Modelled from the spec: factory routine `NewFixedArray(length, TENURED)`: a new array at the
top of the heap whose slots hold undefined. -/
def NewFixedArray (iso : Isolate) (length : Nat) : HeapObject × Isolate :=
  (⟨.FIXED_ARRAY_TYPE, iso.heap_top⟩,
   { iso with
     heap := Function.update iso.heap iso.heap_top
       { prototype := none, properties := [], embedder_fields := fun _ => 0,
         elements := List.replicate length Object.undefined_value }
     heap_top := iso.heap_top + 1 })

/-- Modelled from the spec: member `FixedArray::set(index, value)`. -/
def FixedArray.set (iso : Isolate) (array : HeapObject) (index : Nat) (value : Object) :
    Isolate :=
  { iso with
    heap := Function.update iso.heap array.address
      { iso.heap array.address with
        elements := (iso.heap array.address).elements.set index value } }

/-- Modelled from the spec: member `FixedArray::get(index)`; reading outside the array has no
result. -/
def FixedArray.get (iso : Isolate) (array : HeapObject) (index : Nat) : Option Object :=
  (iso.heap array.address).elements[index]?

/-- Modelled from the spec: routine `JSObject::AddProperty(isolate, object, name, value,
attributes)`: appends an own property to the object. -/
def JSObject.AddProperty (iso : Isolate) (object : HeapObject) (name : String)
    (value : Object) (attributes : PropertyAttributes) : Isolate :=
  { iso with
    heap := Function.update iso.heap object.address
      { iso.heap object.address with
        properties := (iso.heap object.address).properties ++ [⟨name, value, attributes⟩] } }

/-- Modelled from the spec: member `JSObject::SetEmbedderField(index, value)`. -/
def JSObject.SetEmbedderField (iso : Isolate) (object : HeapObject) (index : Nat)
    (value : Nat) : Isolate :=
  { iso with
    heap := Function.update iso.heap object.address
      { iso.heap object.address with
        embedder_fields := Function.update (iso.heap object.address).embedder_fields index value } }

/-- Modelled from the spec: member `JSObject::GetEmbedderField(index)`. -/
def JSObject.GetEmbedderField (iso : Isolate) (object : HeapObject) (index : Nat) : Nat :=
  (iso.heap object.address).embedder_fields index

/-- Modelled from the spec: routine `GlobalHandles::Create(object)`: a new strong node; returns
its location. -/
def GlobalHandles.Create (iso : Isolate) (object : Object) : Nat × Isolate :=
  (iso.global_handles.length,
   { iso with global_handles := iso.global_handles ++ [⟨object, none⟩] })

/-- Modelled from the spec: routine `GlobalHandles::MakeWeak(location, parameter, callback,
type)`. -/
def GlobalHandles.MakeWeak (iso : Isolate) (location parameter : Nat)
    (callback : WeakCallback) (type : WeakCallbackType) : Isolate :=
  match iso.global_handles[location]? with
  | some node =>
    { iso with
      global_handles :=
        iso.global_handles.set location { node with weak := some ⟨parameter, callback, type⟩ } }
  | none => iso

/-- Modelled from the spec: member `EternalHandles::Exists(singleton)`. -/
def EternalHandles.Exists (iso : Isolate) (singleton : SingletonHandle) : Bool :=
  (iso.eternal_handles singleton).isSome

/-- Modelled from the spec: member `EternalHandles::CreateSingleton(isolate, object,
singleton)`. -/
def EternalHandles.CreateSingleton (iso : Isolate) (object : HeapObject)
    (singleton : SingletonHandle) : Isolate :=
  { iso with eternal_handles := Function.update iso.eternal_handles singleton (some object) }

/-- Modelled from the spec: member `EternalHandles::GetSingleton(singleton)`. -/
def EternalHandles.GetSingleton (iso : Isolate) (singleton : SingletonHandle) :
    Option HeapObject :=
  iso.eternal_handles singleton

/-- Calls an external routine: the routine transforms the isolate and the call is
appended to the trace. -/
def Machine.call {α : Type} (m : Machine) (r : Routine) (f : Isolate → α × Isolate) :
    α × Machine :=
  ((f m.isolate).1, { isolate := (f m.isolate).2, trace := m.trace ++ [Event.call r] })

/-- Modelled from the spec: member `Isolate::Throw(error)`: the error becomes the pending
exception and the failure sentinel is returned. -/
def Machine.Throw (m : Machine) (e : JSError) : Object × Machine :=
  (Object.exception,
   { isolate := { m.isolate with pending_exception := some e },
     trace := m.trace ++ [Event.throw e] })

/-! ## Macros of the runtime calling convention -/

/-- Modelled from the spec: the argument vector of a runtime call. -/
abbrev Arguments := List Object

/-- Modelled from the spec: macro `CONVERT_ARG_HANDLE_CHECKED(Type, name, index)`: a `CHECK`
that the argument has the type, then the argument. An argument vector that is too short counts
as a failed check. -/
def CONVERT_ARG_HANDLE_CHECKED (IsType : Object → Bool) (args : Arguments) (index : Nat) :
    Option Object :=
  match args[index]? with
  | some o => if IsType o then some o else none
  | none => none

/-- Modelled from the spec: macro `CONVERT_SMI_ARG_CHECKED(name, index)`. -/
def CONVERT_SMI_ARG_CHECKED (args : Arguments) (index : Nat) : Option Int :=
  match args[index]? with
  | some (.smi v) => some v
  | _ => none

/-- Modelled from the spec: macro `CONVERT_BOOLEAN_ARG_CHECKED(name, index)`. -/
def CONVERT_BOOLEAN_ARG_CHECKED (args : Arguments) (index : Nat) : Option Bool :=
  match args[index]? with
  | some o => if o.IsBoolean then some o.IsTrue else none
  | none => none

/-- Modelled from the spec: macro `RETURN_RESULT_OR_FAILURE(isolate, call)`: the failure
sentinel when the call yields nothing, the dereferenced result otherwise. -/
def RETURN_RESULT_OR_FAILURE {α : Type} (deref : α → Object)
    (r : MaybeHandle α × Machine) : Option (Object × Machine) :=
  match r.1 with
  | none => some (Object.exception, r.2)
  | some result => some (deref result, r.2)

/-- Modelled from the spec: macro `THROW_NEW_ERROR_RETURN_FAILURE(isolate, call)`. -/
def THROW_NEW_ERROR_RETURN_FAILURE (m : Machine) (e : JSError) : Option (Object × Machine) :=
  some (m.Throw e)

/-! ## The runtime handlers -/

/-- Handler `Runtime_FormatList` (lines 62-69). -/
def Runtime_FormatList (lib : Library) (m : Machine) (args : Arguments) :
    Option (Object × Machine) := do
  let list_format ← CONVERT_ARG_HANDLE_CHECKED Object.IsJSListFormat args 0
  let list ← CONVERT_ARG_HANDLE_CHECKED Object.IsJSArray args 1
  RETURN_RESULT_OR_FAILURE Object.string
    (m.call .JSListFormat_FormatList (lib.JSListFormat_FormatList · list_format list))

/-- Handler `Runtime_FormatListToParts` (lines 72-79). -/
def Runtime_FormatListToParts (lib : Library) (m : Machine) (args : Arguments) :
    Option (Object × Machine) := do
  let list_format ← CONVERT_ARG_HANDLE_CHECKED Object.IsJSListFormat args 0
  let list ← CONVERT_ARG_HANDLE_CHECKED Object.IsJSArray args 1
  RETURN_RESULT_OR_FAILURE Object.heap
    (m.call .JSListFormat_FormatListToParts
      (lib.JSListFormat_FormatListToParts · list_format list))

/-- Handler `Runtime_CanonicalizeLanguageTag` (lines 82-93). -/
def Runtime_CanonicalizeLanguageTag (lib : Library) (m : Machine) (args : Arguments) :
    Option (Object × Machine) := do
  let locale ← CONVERT_ARG_HANDLE_CHECKED Object.IsObject args 0
  let r := m.call .Intl_CanonicalizeLanguageTag (lib.Intl_CanonicalizeLanguageTag · locale)
  match r.1 with
  | none => some (Object.exception, r.2)
  | some canonicalized =>
    some (Object.string (NewStringFromAsciiChecked (c_str canonicalized)), r.2)

/-- Handler `Runtime_AvailableLocalesOf` (lines 95-103). -/
def Runtime_AvailableLocalesOf (lib : Library) (m : Machine) (args : Arguments) :
    Option (Object × Machine) := do
  let service ← CONVERT_ARG_HANDLE_CHECKED Object.IsString args 0
  let r := m.call .Intl_AvailableLocalesOf (lib.Intl_AvailableLocalesOf · service)
  match r.1 with
  | none => some (Object.exception, r.2)
  | some locales => some (Object.heap locales, r.2)

/-- Handler `Runtime_GetDefaultICULocale` (lines 105-111). -/
def Runtime_GetDefaultICULocale (lib : Library) (m : Machine) (_args : Arguments) :
    Option (Object × Machine) :=
  let r := m.call .Intl_DefaultLocale lib.Intl_DefaultLocale
  some (Object.string (NewStringFromAsciiChecked (c_str r.1)), r.2)

/-- Handler `Runtime_DefineWEProperty` (lines 113-122). -/
def Runtime_DefineWEProperty (lib : Library) (m : Machine) (args : Arguments) :
    Option (Object × Machine) := do
  let target ← CONVERT_ARG_HANDLE_CHECKED Object.IsJSObject args 0
  let key ← CONVERT_ARG_HANDLE_CHECKED Object.IsName args 1
  let value ← CONVERT_ARG_HANDLE_CHECKED Object.IsObject args 2
  let r := m.call .Intl_DefineWEProperty (lib.Intl_DefineWEProperty · target key value)
  some (Object.undefined_value, r.2)

/-- Handler `Runtime_IsInitializedIntlObjectOfType` (lines 124-136). -/
def Runtime_IsInitializedIntlObjectOfType (lib : Library) (m : Machine) (args : Arguments) :
    Option (Object × Machine) := do
  let input ← CONVERT_ARG_HANDLE_CHECKED Object.IsObject args 0
  let expected_type_int ← CONVERT_SMI_ARG_CHECKED args 1
  let expected_type := lib.Intl_TypeFromInt expected_type_int
  let r := m.call .Intl_IsObjectOfType (lib.Intl_IsObjectOfType · input expected_type)
  some (Heap.ToBoolean r.1, r.2)

/-- Handler `Runtime_MarkAsInitializedIntlObjectOfType` (lines 138-157), release build:
the result of the property store is only asserted on. -/
def Runtime_MarkAsInitializedIntlObjectOfType (lib : Library) (m : Machine)
    (args : Arguments) : Option (Object × Machine) := do
  let input ← CONVERT_ARG_HANDLE_CHECKED Object.IsJSObject args 0
  let type ← CONVERT_ARG_HANDLE_CHECKED Object.IsSmi args 1
  let marker := m.isolate.intl_initialized_marker_symbol
  let r := m.call .JSObject_SetProperty
    (lib.JSObject_SetProperty · input marker type LanguageMode.kStrict)
  some (Object.undefined_value, r.2)

/-- Handler `Runtime_CreateDateTimeFormat` (lines 159-191). -/
def Runtime_CreateDateTimeFormat (lib : Library) (m : Machine) (args : Arguments) :
    Option (Object × Machine) := do
  let locale ← CONVERT_ARG_HANDLE_CHECKED Object.IsString args 0
  let options ← CONVERT_ARG_HANDLE_CHECKED Object.IsJSObject args 1
  let resolved ← CONVERT_ARG_HANDLE_CHECKED Object.IsJSObject args 2
  let constructor := m.isolate.intl_date_time_format_function
  let r1 := m.call .JSObject_New (lib.JSObject_New · constructor constructor)
  match r1.1 with
  | none => some (Object.exception, r1.2)
  | some local_object =>
    let r2 := r1.2.call .DateFormat_InitializeDateTimeFormat
      (lib.DateFormat_InitializeDateTimeFormat · locale options resolved)
    match r2.1 with
    | none => some (Object.exception, r2.2)
    | some date_format =>
      if date_format = 0 then none
      else
        let i3 := JSObject.SetEmbedderField r2.2.isolate local_object
          lib.DateFormat_kSimpleDateFormatIndex date_format
        let w := GlobalHandles.Create i3 (Object.heap local_object)
        let i5 := GlobalHandles.MakeWeak w.2 w.1 w.1
          .DateFormat_DeleteDateFormat .kInternalFields
        some (Object.heap local_object, { r2.2 with isolate := i5 })

/-- Handler `Runtime_DateTimeFormatResolvedOptions` (lines 194-210). -/
def Runtime_DateTimeFormatResolvedOptions (lib : Library) (m : Machine) (args : Arguments) :
    Option (Object × Machine) := do
  let dtf ← CONVERT_ARG_HANDLE_CHECKED Object.IsObject args 0
  if !dtf.IsJSReceiver then
    let method_str :=
      NewStringFromStaticChars "Intl.DateTimeFormat.prototype.resolvedOptions"
    THROW_NEW_ERROR_RETURN_FAILURE m
      (NewTypeError .kIncompatibleMethodReceiver method_str dtf)
  else
    let date_format_holder := dtf
    RETURN_RESULT_OR_FAILURE Object.heap
      (m.call .JSDateTimeFormat_ResolvedOptions
        (lib.JSDateTimeFormat_ResolvedOptions · date_format_holder))

/-- Handler `Runtime_NumberFormatResolvedOptions` (lines 212-237). -/
def Runtime_NumberFormatResolvedOptions (lib : Library) (m : Machine) (args : Arguments) :
    Option (Object × Machine) := do
  let number_format_obj ← CONVERT_ARG_HANDLE_CHECKED Object.IsObject args 0
  if !number_format_obj.IsJSReceiver then
    let method_str :=
      NewStringFromStaticChars "Intl.NumberFormat.prototype.resolvedOptions"
    THROW_NEW_ERROR_RETURN_FAILURE m
      (NewTypeError .kIncompatibleMethodReceiver method_str number_format_obj)
  else
    let format_holder := number_format_obj
    let r := m.call .JSNumberFormat_UnwrapNumberFormat
      (lib.JSNumberFormat_UnwrapNumberFormat · format_holder)
    match r.1 with
    | none => some (Object.exception, r.2)
    | some number_format =>
      let r2 := r.2.call .JSNumberFormat_ResolvedOptions
        (lib.JSNumberFormat_ResolvedOptions · number_format)
      some (Object.heap r2.1, r2.2)

/-- Handler `Runtime_CollatorResolvedOptions` (lines 239-258). -/
def Runtime_CollatorResolvedOptions (lib : Library) (m : Machine) (args : Arguments) :
    Option (Object × Machine) := do
  let collator_obj ← CONVERT_ARG_HANDLE_CHECKED Object.IsObject args 0
  if !collator_obj.IsJSCollator then
    let method_str := NewStringFromStaticChars "Intl.Collator.prototype.resolvedOptions"
    THROW_NEW_ERROR_RETURN_FAILURE m
      (NewTypeError .kIncompatibleMethodReceiver method_str collator_obj)
  else
    let collator := collator_obj
    let r := m.call .JSCollator_ResolvedOptions (lib.JSCollator_ResolvedOptions · collator)
    some (Object.heap r.1, r.2)

/-- Handler `Runtime_ParseExtension` (lines 260-277). -/
def Runtime_ParseExtension (lib : Library) (m : Machine) (args : Arguments) :
    Option (Object × Machine) := do
  let extension ← CONVERT_ARG_HANDLE_CHECKED Object.IsString args 0
  let r := m.call .Intl_ParseExtension
    (lib.Intl_ParseExtension · (lib.String_ToCString extension) StdMap.empty)
  let map := r.1
  let o := NewJSObjectWithNullProto r.2.isolate
  let extension_map := o.1
  let filled := map.entries.foldl
    (fun iso it =>
      JSObject.AddProperty iso extension_map
        (NewStringFromAsciiChecked (c_str it.1))
        (Object.string (NewStringFromAsciiChecked (c_str it.2))) .NONE)
    o.2
  some (Object.heap extension_map, { r.2 with isolate := filled })

/-- Handler `Runtime_PluralRulesSelect` (lines 279-303). -/
def Runtime_PluralRulesSelect (lib : Library) (m : Machine) (args : Arguments) :
    Option (Object × Machine) := do
  let plural_rules_obj ← CONVERT_ARG_HANDLE_CHECKED Object.IsObject args 0
  let number ← CONVERT_ARG_HANDLE_CHECKED Object.IsObject args 1
  if !plural_rules_obj.IsJSPluralRules then
    let method_str := NewStringFromStaticChars "Intl.PluralRules.prototype.select"
    THROW_NEW_ERROR_RETURN_FAILURE m
      (NewTypeError .kIncompatibleMethodReceiver method_str plural_rules_obj)
  else
    let plural_rules := plural_rules_obj
    RETURN_RESULT_OR_FAILURE Object.string
      (m.call .JSPluralRules_ResolvePlural
        (lib.JSPluralRules_ResolvePlural · plural_rules number))

/-- Handler `Runtime_ToDateTimeOptions` (lines 305-315). -/
def Runtime_ToDateTimeOptions (lib : Library) (m : Machine) (args : Arguments) :
    Option (Object × Machine) := do
  let options ← CONVERT_ARG_HANDLE_CHECKED Object.IsObject args 0
  let required ← CONVERT_ARG_HANDLE_CHECKED Object.IsString args 1
  let defaults ← CONVERT_ARG_HANDLE_CHECKED Object.IsString args 2
  RETURN_RESULT_OR_FAILURE Object.heap
    (m.call .JSDateTimeFormat_ToDateTimeOptions
      (lib.JSDateTimeFormat_ToDateTimeOptions · options
        (lib.String_ToCString required) (lib.String_ToCString defaults)))

/-- Handler `Runtime_StringToLowerCaseIntl` (lines 317-323). -/
def Runtime_StringToLowerCaseIntl (lib : Library) (m : Machine) (args : Arguments) :
    Option (Object × Machine) := do
  let s ← CONVERT_ARG_HANDLE_CHECKED Object.IsString args 0
  let f := m.call .String_Flatten (lib.String_Flatten · s)
  let s := Object.string f.1
  RETURN_RESULT_OR_FAILURE Object.string (f.2.call .ConvertToLower (lib.ConvertToLower s))

/-- Handler `Runtime_StringToUpperCaseIntl` (lines 325-331). -/
def Runtime_StringToUpperCaseIntl (lib : Library) (m : Machine) (args : Arguments) :
    Option (Object × Machine) := do
  let s ← CONVERT_ARG_HANDLE_CHECKED Object.IsString args 0
  let f := m.call .String_Flatten (lib.String_Flatten · s)
  let s := Object.string f.1
  RETURN_RESULT_OR_FAILURE Object.string (f.2.call .ConvertToUpper (lib.ConvertToUpper s))

/-- Handler `Runtime_DateCacheVersion` (lines 333-349). -/
def Runtime_DateCacheVersion (m : Machine) (_args : Arguments) :
    Option (Object × Machine) :=
  if m.isolate.serializer_enabled then
    some (Object.undefined_value, m)
  else
    let iso :=
      if !EternalHandles.Exists m.isolate .DATE_CACHE_VERSION then
        let a := NewFixedArray m.isolate 1
        let date_cache_version := a.1
        let i2 := FixedArray.set a.2 date_cache_version 0 (Object.smi 0)
        EternalHandles.CreateSingleton i2 date_cache_version .DATE_CACHE_VERSION
      else m.isolate
    match EternalHandles.GetSingleton iso .DATE_CACHE_VERSION with
    | none => none
    | some date_cache_version =>
      match FixedArray.get iso date_cache_version 0 with
      | none => none
      | some v => some (v, { m with isolate := iso })

/-- Handler `Runtime_IntlUnwrapReceiver` (lines 351-364). -/
def Runtime_IntlUnwrapReceiver (lib : Library) (m : Machine) (args : Arguments) :
    Option (Object × Machine) := do
  let receiver ← CONVERT_ARG_HANDLE_CHECKED Object.IsJSReceiver args 0
  let type_int ← CONVERT_SMI_ARG_CHECKED args 1
  let constructor ← CONVERT_ARG_HANDLE_CHECKED Object.IsJSFunction args 2
  let method ← CONVERT_ARG_HANDLE_CHECKED Object.IsString args 3
  let check_legacy_constructor ← CONVERT_BOOLEAN_ARG_CHECKED args 4
  RETURN_RESULT_OR_FAILURE Object.heap
    (m.call .Intl_UnwrapReceiver
      (lib.Intl_UnwrapReceiver · receiver constructor (lib.Intl_TypeFromInt type_int)
        method check_legacy_constructor))

/-! ## A concrete library and machine

An instance of the `Library` record on which the theorems are exercised.  Receivers are
unwrapped the ECMA-402 legacy way: the ordinary object at address 7 was produced by
calling the `Intl.NumberFormat` / `Intl.DateTimeFormat` constructor on an existing
object, so it is not a formatter itself but carries one (at address 8) under the
fallback symbol, and the unwrapping routines accept it. -/

/-- The pending error the example library leaves when it fails. -/
def exampleFailure (o : Object) : JSError :=
  { kind := .RangeError, template := .kOther 1, arg0 := o, arg1 := Object.undefined_value }

/-- An isolate with nothing pending, no handles and a heap that is free from address 100. -/
def exampleIsolate : Isolate :=
  { serializer_enabled := false
    pending_exception := none
    eternal_handles := fun _ => none
    global_handles := []
    intl_date_time_format_function := Object.heap ⟨.JS_FUNCTION_TYPE, 1⟩
    intl_initialized_marker_symbol := Object.heap ⟨.SYMBOL_TYPE, 2⟩
    heap := fun _ =>
      { prototype := none, properties := [], embedder_fields := fun _ => 0, elements := [] }
    heap_top := 100 }

/-- The machine that starts from `exampleIsolate` with an empty trace. -/
def exampleMachine : Machine := { isolate := exampleIsolate, trace := [] }

/-- A two-entry extension map, as `Intl::ParseExtension` fills it for `-u-ca-greg-nu-latn`. -/
def exampleMap : StdMap :=
  ⟨[("ca", "greg"), ("nu", "latn")], by decide⟩

/-- The example library. -/
def exampleLibrary : Library where
  JSListFormat_FormatList := fun iso _ list =>
    if list = Object.heap ⟨.JS_ARRAY_TYPE, 20⟩ then (some "a, b and c", iso)
    else (none, { iso with pending_exception := some (exampleFailure list) })
  JSListFormat_FormatListToParts := fun iso _ list =>
    if list = Object.heap ⟨.JS_ARRAY_TYPE, 20⟩ then (some ⟨.JS_ARRAY_TYPE, 21⟩, iso)
    else (none, { iso with pending_exception := some (exampleFailure list) })
  Intl_CanonicalizeLanguageTag := fun iso tag =>
    if tag = Object.string "EN-us" then (some "en-US", iso)
    else (none, { iso with pending_exception := some (exampleFailure tag) })
  Intl_AvailableLocalesOf := fun iso _ => (some ⟨.JS_OBJECT_TYPE, 22⟩, iso)
  Intl_DefaultLocale := fun iso => ("en-US", iso)
  Intl_DefineWEProperty := fun iso _ _ _ => ((), iso)
  Intl_IsObjectOfType := fun iso input _ => (input.IsJSObject, iso)
  JSObject_SetProperty := fun iso _ _ value _ => (some value, iso)
  JSObject_New := fun iso constructor _ =>
    if constructor.IsJSFunction then
      (some ⟨.JS_OBJECT_TYPE, iso.heap_top⟩, { iso with heap_top := iso.heap_top + 1 })
    else (none, { iso with pending_exception := some (exampleFailure constructor) })
  DateFormat_InitializeDateTimeFormat := fun iso locale _ _ =>
    if locale = Object.string "en-US" then (some 4096, iso)
    else (none, { iso with pending_exception := some (exampleFailure locale) })
  DateFormat_kSimpleDateFormatIndex := 0
  JSDateTimeFormat_ResolvedOptions := fun iso holder =>
    if holder = Object.heap ⟨.JS_OBJECT_TYPE, 7⟩ then (some ⟨.JS_OBJECT_TYPE, 23⟩, iso)
    else (none, { iso with pending_exception := some (exampleFailure holder) })
  JSNumberFormat_UnwrapNumberFormat := fun iso holder =>
    match holder with
    | .heap ⟨.JS_INTL_NUMBER_FORMAT_TYPE, a⟩ => (some ⟨.JS_INTL_NUMBER_FORMAT_TYPE, a⟩, iso)
    | other =>
      if other = Object.heap ⟨.JS_OBJECT_TYPE, 7⟩ then
        (some ⟨.JS_INTL_NUMBER_FORMAT_TYPE, 8⟩, iso)
      else (none, { iso with pending_exception := some (exampleFailure other) })
  JSNumberFormat_ResolvedOptions := fun iso _ => (⟨.JS_OBJECT_TYPE, 24⟩, iso)
  JSCollator_ResolvedOptions := fun iso _ => (⟨.JS_OBJECT_TYPE, 25⟩, iso)
  Intl_ParseExtension := fun iso extension map =>
    if extension = "-u-ca-greg-nu-latn" then (exampleMap, iso) else (map, iso)
  JSPluralRules_ResolvePlural := fun iso _ number =>
    if number = Object.smi 1 then (some "one", iso)
    else if number.IsSmi then (some "other", iso)
    else (none, { iso with pending_exception := some (exampleFailure number) })
  JSDateTimeFormat_ToDateTimeOptions := fun iso _ _ _ => (some ⟨.JS_OBJECT_TYPE, 26⟩, iso)
  String_ToCString := fun o =>
    match o with
    | .string s => s
    | _ => ""
  String_Flatten := fun iso o =>
    match o with
    | .string s => (s, iso)
    | _ => ("", iso)
  ConvertToLower := fun o iso =>
    match o with
    | .string s => (some s.toLower, iso)
    | other => (none, { iso with pending_exception := some (exampleFailure other) })
  ConvertToUpper := fun o iso =>
    match o with
    | .string s => (some s.toUpper, iso)
    | other => (none, { iso with pending_exception := some (exampleFailure other) })
  Intl_TypeFromInt := fun n => n
  Intl_UnwrapReceiver := fun iso receiver _ _ _ _ =>
    match receiver with
    | .heap r => (some r, iso)
    | other => (none, { iso with pending_exception := some (exampleFailure other) })

/-! ## The dispatch table -/

/-- The runtime functions the file defines. -/
inductive Handler
  | FormatList
  | FormatListToParts
  | CanonicalizeLanguageTag
  | AvailableLocalesOf
  | GetDefaultICULocale
  | DefineWEProperty
  | IsInitializedIntlObjectOfType
  | MarkAsInitializedIntlObjectOfType
  | CreateDateTimeFormat
  | DateTimeFormatResolvedOptions
  | NumberFormatResolvedOptions
  | CollatorResolvedOptions
  | ParseExtension
  | PluralRulesSelect
  | ToDateTimeOptions
  | StringToLowerCaseIntl
  | StringToUpperCaseIntl
  | DateCacheVersion
  | IntlUnwrapReceiver
  deriving DecidableEq, Repr

/-- The routine behind each runtime function. -/
def Handler.run (lib : Library) : Handler → Machine → Arguments → Option (Object × Machine)
  | .FormatList => Runtime_FormatList lib
  | .FormatListToParts => Runtime_FormatListToParts lib
  | .CanonicalizeLanguageTag => Runtime_CanonicalizeLanguageTag lib
  | .AvailableLocalesOf => Runtime_AvailableLocalesOf lib
  | .GetDefaultICULocale => Runtime_GetDefaultICULocale lib
  | .DefineWEProperty => Runtime_DefineWEProperty lib
  | .IsInitializedIntlObjectOfType => Runtime_IsInitializedIntlObjectOfType lib
  | .MarkAsInitializedIntlObjectOfType => Runtime_MarkAsInitializedIntlObjectOfType lib
  | .CreateDateTimeFormat => Runtime_CreateDateTimeFormat lib
  | .DateTimeFormatResolvedOptions => Runtime_DateTimeFormatResolvedOptions lib
  | .NumberFormatResolvedOptions => Runtime_NumberFormatResolvedOptions lib
  | .CollatorResolvedOptions => Runtime_CollatorResolvedOptions lib
  | .ParseExtension => Runtime_ParseExtension lib
  | .PluralRulesSelect => Runtime_PluralRulesSelect lib
  | .ToDateTimeOptions => Runtime_ToDateTimeOptions lib
  | .StringToLowerCaseIntl => Runtime_StringToLowerCaseIntl lib
  | .StringToUpperCaseIntl => Runtime_StringToUpperCaseIntl lib
  | .DateCacheVersion => Runtime_DateCacheVersion
  | .IntlUnwrapReceiver => Runtime_IntlUnwrapReceiver lib

/-! ## Vocabulary of the specification -/

/-- The method a runtime function implements, for the four that the specification says
reject an incompatible receiver under the name of that method. -/
def Handler.method : Handler → Option String
  | .DateTimeFormatResolvedOptions => some "Intl.DateTimeFormat.prototype.resolvedOptions"
  | .NumberFormatResolvedOptions => some "Intl.NumberFormat.prototype.resolvedOptions"
  | .CollatorResolvedOptions => some "Intl.Collator.prototype.resolvedOptions"
  | .PluralRulesSelect => some "Intl.PluralRules.prototype.select"
  | _ => none

/-- A run `out` started in `m` passes the result of an external routine through, in the
words of the specification: the run returns; what it did was to call external routines,
the given routine exactly once and last (`before` lists the calls ahead of it), so there
is no second attempt; it leaves the isolate as the routine left it; it returns the failure
sentinel if and only if the routine yielded nothing, and otherwise the routine's value
unchanged. -/
def PassesThrough {α : Type} (deref : α → Object) (m : Machine) (before : List Routine)
    (routine : Routine) (result : MaybeHandle α × Isolate)
    (out : Option (Object × Machine)) : Prop :=
  ∃ v m', out = some (v, m') ∧
    m'.trace = m.trace ++ (before ++ [routine]).map Event.call ∧
    routine ∉ before ∧
    m'.isolate = result.2 ∧
    (v = Object.exception ↔ result.1 = none) ∧
    (∀ x, result.1 = some x → v = deref x)

/-! ## Evaluation lemmas -/

theorem CONVERT_ARG_HANDLE_CHECKED_zero (p : Object → Bool) (o : Object) (rest : Arguments) :
    CONVERT_ARG_HANDLE_CHECKED p (o :: rest) 0 = if p o then some o else none := by
  simp [CONVERT_ARG_HANDLE_CHECKED]

theorem CONVERT_ARG_HANDLE_CHECKED_succ (p : Object → Bool) (o : Object) (rest : Arguments)
    (i : Nat) :
    CONVERT_ARG_HANDLE_CHECKED p (o :: rest) (i + 1) = CONVERT_ARG_HANDLE_CHECKED p rest i := by
  simp [CONVERT_ARG_HANDLE_CHECKED]

theorem CONVERT_ARG_HANDLE_CHECKED_nil (p : Object → Bool) (i : Nat) :
    CONVERT_ARG_HANDLE_CHECKED p [] i = none := by
  simp [CONVERT_ARG_HANDLE_CHECKED]

attribute [simp] CONVERT_ARG_HANDLE_CHECKED_zero CONVERT_ARG_HANDLE_CHECKED_succ
  CONVERT_ARG_HANDLE_CHECKED_nil

/-- The events a run appended to a trace are what is left after dropping the old trace. -/
theorem drop_trace_append (old new : List Event) : List.drop old.length (old ++ new) = new := by
  simp

/-- A thrown error is not a call. -/
theorem throw_not_mem_calls (e : JSError) (rs : List Routine) :
    Event.throw e ∉ rs.map Event.call := by
  simp

theorem Runtime_CollatorResolvedOptions_eval (lib : Library) (m : Machine) (o : Object)
    (rest : Arguments) :
    Runtime_CollatorResolvedOptions lib m (o :: rest) =
      if o.IsJSCollator then
        some (Object.heap (lib.JSCollator_ResolvedOptions m.isolate o).1,
          { isolate := (lib.JSCollator_ResolvedOptions m.isolate o).2,
            trace := m.trace ++ [Event.call .JSCollator_ResolvedOptions] })
      else
        some (m.Throw (NewTypeError .kIncompatibleMethodReceiver
          (Object.string "Intl.Collator.prototype.resolvedOptions") o)) := by
  cases h : o.IsJSCollator <;>
    simp [Runtime_CollatorResolvedOptions, Object.IsObject, h, THROW_NEW_ERROR_RETURN_FAILURE,
      NewStringFromStaticChars, Machine.call]

theorem Runtime_DateTimeFormatResolvedOptions_eval (lib : Library) (m : Machine) (o : Object)
    (rest : Arguments) :
    Runtime_DateTimeFormatResolvedOptions lib m (o :: rest) =
      if o.IsJSReceiver then
        some (match (lib.JSDateTimeFormat_ResolvedOptions m.isolate o).1 with
              | none => Object.exception
              | some r => Object.heap r,
          { isolate := (lib.JSDateTimeFormat_ResolvedOptions m.isolate o).2,
            trace := m.trace ++ [Event.call .JSDateTimeFormat_ResolvedOptions] })
      else
        some (m.Throw (NewTypeError .kIncompatibleMethodReceiver
          (Object.string "Intl.DateTimeFormat.prototype.resolvedOptions") o)) := by
  cases h : o.IsJSReceiver <;>
    simp [Runtime_DateTimeFormatResolvedOptions, Object.IsObject, h,
      THROW_NEW_ERROR_RETURN_FAILURE, NewStringFromStaticChars, Machine.call,
      RETURN_RESULT_OR_FAILURE]
  split <;> simp_all

theorem Runtime_NumberFormatResolvedOptions_eval (lib : Library) (m : Machine) (o : Object)
    (rest : Arguments) :
    Runtime_NumberFormatResolvedOptions lib m (o :: rest) =
      if o.IsJSReceiver then
        match (lib.JSNumberFormat_UnwrapNumberFormat m.isolate o).1 with
        | none =>
          some (Object.exception,
            { isolate := (lib.JSNumberFormat_UnwrapNumberFormat m.isolate o).2,
              trace := m.trace ++ [Event.call .JSNumberFormat_UnwrapNumberFormat] })
        | some nf =>
          some (Object.heap (lib.JSNumberFormat_ResolvedOptions
                  (lib.JSNumberFormat_UnwrapNumberFormat m.isolate o).2 nf).1,
            { isolate := (lib.JSNumberFormat_ResolvedOptions
                  (lib.JSNumberFormat_UnwrapNumberFormat m.isolate o).2 nf).2,
              trace := m.trace ++ [Event.call .JSNumberFormat_UnwrapNumberFormat,
                Event.call .JSNumberFormat_ResolvedOptions] })
      else
        some (m.Throw (NewTypeError .kIncompatibleMethodReceiver
          (Object.string "Intl.NumberFormat.prototype.resolvedOptions") o)) := by
  cases h : o.IsJSReceiver <;>
    simp [Runtime_NumberFormatResolvedOptions, Object.IsObject, h,
      THROW_NEW_ERROR_RETURN_FAILURE, NewStringFromStaticChars, Machine.call]

theorem Runtime_PluralRulesSelect_eval (lib : Library) (m : Machine) (o n : Object)
    (rest : Arguments) :
    Runtime_PluralRulesSelect lib m (o :: n :: rest) =
      if o.IsJSPluralRules then
        some (match (lib.JSPluralRules_ResolvePlural m.isolate o n).1 with
              | none => Object.exception
              | some c => Object.string c,
          { isolate := (lib.JSPluralRules_ResolvePlural m.isolate o n).2,
            trace := m.trace ++ [Event.call .JSPluralRules_ResolvePlural] })
      else
        some (m.Throw (NewTypeError .kIncompatibleMethodReceiver
          (Object.string "Intl.PluralRules.prototype.select") o)) := by
  cases h : o.IsJSPluralRules <;>
    simp [Runtime_PluralRulesSelect, Object.IsObject, h, THROW_NEW_ERROR_RETURN_FAILURE,
      NewStringFromStaticChars, Machine.call, RETURN_RESULT_OR_FAILURE]
  split <;> simp_all

/-- A run that only called external routines is not a throw of the handler. -/
theorem throw_ne_calls (m : Machine) (e : JSError) (v : Object) (iso : Isolate) (r : Routine)
    (more : List Event) :
    some (v, ({ isolate := iso, trace := m.trace ++ Event.call r :: more } : Machine)) ≠
      some (m.Throw e) := by
  intro h
  simp [Machine.Throw] at h

/-! ## Receiver checks -/

/-- C8: `Runtime_CollatorResolvedOptions` throws a TypeError itself exactly when its argument
is not a `JSCollator`; on a `JSCollator` it returns the object `JSCollator::ResolvedOptions`
produced, after that single call, and its result is never the failure sentinel. -/
theorem collator_resolved_options_contract (lib : Library) (m : Machine) (o : Object) :
    ((∃ e, e.kind = ErrorKind.TypeError ∧
        Runtime_CollatorResolvedOptions lib m [o] = some (m.Throw e)) ↔
      o.IsJSCollator = false) ∧
    (o.IsJSCollator = true →
      Runtime_CollatorResolvedOptions lib m [o] =
        some (Object.heap (lib.JSCollator_ResolvedOptions m.isolate o).1,
          { isolate := (lib.JSCollator_ResolvedOptions m.isolate o).2,
            trace := m.trace ++ [Event.call .JSCollator_ResolvedOptions] }) ∧
      ∀ m', Runtime_CollatorResolvedOptions lib m [o] ≠ some (Object.exception, m')) := by
  rw [Runtime_CollatorResolvedOptions_eval]
  cases h : o.IsJSCollator
  · simp only [Bool.false_eq_true, if_false, false_implies, and_true, iff_true]
    exact ⟨_, rfl, rfl⟩
  · simp only [if_true, Bool.true_eq_false, iff_false, not_exists, not_and, true_implies,
      true_and, reduceCtorEq]
    refine ⟨fun e _ => throw_ne_calls m e _ _ _ [], fun m' => ?_⟩
    simp [Object.exception]

/-- Witness of C8 on a collator: the example library's resolved options are returned. -/
theorem collator_resolved_options_contract_witness :
    (Object.heap ⟨.JS_INTL_COLLATOR_TYPE, 5⟩).IsJSCollator = true ∧
    Runtime_CollatorResolvedOptions exampleLibrary exampleMachine
        [Object.heap ⟨.JS_INTL_COLLATOR_TYPE, 5⟩] =
      some (Object.heap ⟨.JS_OBJECT_TYPE, 25⟩,
        { isolate := exampleIsolate, trace := [Event.call .JSCollator_ResolvedOptions] }) :=
  ⟨rfl, ((collator_resolved_options_contract exampleLibrary exampleMachine
    (Object.heap ⟨.JS_INTL_COLLATOR_TYPE, 5⟩)).2 rfl).1⟩

/-- C9: the check that `Runtime_DateTimeFormatResolvedOptions` and
`Runtime_NumberFormatResolvedOptions` perform themselves rejects exactly the arguments that
are not a `JSReceiver`: on those both throw the TypeError and do nothing else (no routine is
called); on a `JSReceiver` neither throws, and the outcome is the library's. -/
theorem resolved_options_receiver_check (lib : Library) (m : Machine) (o : Object) :
    ((∃ e, Runtime_DateTimeFormatResolvedOptions lib m [o] = some (m.Throw e)) ↔
      o.IsJSReceiver = false) ∧
    ((∃ e, Runtime_NumberFormatResolvedOptions lib m [o] = some (m.Throw e)) ↔
      o.IsJSReceiver = false) ∧
    (o.IsJSReceiver = false →
      Runtime_DateTimeFormatResolvedOptions lib m [o] =
        some (m.Throw (NewTypeError .kIncompatibleMethodReceiver
          (Object.string "Intl.DateTimeFormat.prototype.resolvedOptions") o)) ∧
      Runtime_NumberFormatResolvedOptions lib m [o] =
        some (m.Throw (NewTypeError .kIncompatibleMethodReceiver
          (Object.string "Intl.NumberFormat.prototype.resolvedOptions") o))) ∧
    (o.IsJSReceiver = true →
      Runtime_DateTimeFormatResolvedOptions lib m [o] =
        some (match (lib.JSDateTimeFormat_ResolvedOptions m.isolate o).1 with
              | none => Object.exception
              | some r => Object.heap r,
          { isolate := (lib.JSDateTimeFormat_ResolvedOptions m.isolate o).2,
            trace := m.trace ++ [Event.call .JSDateTimeFormat_ResolvedOptions] }) ∧
      Runtime_NumberFormatResolvedOptions lib m [o] =
        match (lib.JSNumberFormat_UnwrapNumberFormat m.isolate o).1 with
        | none =>
          some (Object.exception,
            { isolate := (lib.JSNumberFormat_UnwrapNumberFormat m.isolate o).2,
              trace := m.trace ++ [Event.call .JSNumberFormat_UnwrapNumberFormat] })
        | some nf =>
          some (Object.heap (lib.JSNumberFormat_ResolvedOptions
                  (lib.JSNumberFormat_UnwrapNumberFormat m.isolate o).2 nf).1,
            { isolate := (lib.JSNumberFormat_ResolvedOptions
                  (lib.JSNumberFormat_UnwrapNumberFormat m.isolate o).2 nf).2,
              trace := m.trace ++ [Event.call .JSNumberFormat_UnwrapNumberFormat,
                Event.call .JSNumberFormat_ResolvedOptions] })) := by
  rw [Runtime_DateTimeFormatResolvedOptions_eval, Runtime_NumberFormatResolvedOptions_eval]
  cases h : o.IsJSReceiver
  · simp only [Bool.false_eq_true, if_false, false_implies, and_true, iff_true, true_implies,
      and_self]
    exact ⟨⟨_, rfl⟩, ⟨_, rfl⟩⟩
  · simp only [if_true, Bool.true_eq_false, iff_false, not_exists, false_implies, true_implies,
      and_self, and_true, reduceCtorEq]
    refine ⟨fun e => throw_ne_calls m e _ _ _ [], fun e => ?_⟩
    cases (lib.JSNumberFormat_UnwrapNumberFormat m.isolate o).1
    · exact throw_ne_calls m e _ _ _ []
    · exact throw_ne_calls m e _ _ _ [_]

/-- Witness of C9: a small integer is rejected by both handlers, and the ordinary object
at address 7 is passed on to the library by both. -/
theorem resolved_options_receiver_check_witness :
    ((Object.smi 3).IsJSReceiver = false ∧
      Runtime_DateTimeFormatResolvedOptions exampleLibrary exampleMachine [Object.smi 3] =
        some (exampleMachine.Throw (NewTypeError .kIncompatibleMethodReceiver
          (Object.string "Intl.DateTimeFormat.prototype.resolvedOptions") (Object.smi 3))) ∧
      Runtime_NumberFormatResolvedOptions exampleLibrary exampleMachine [Object.smi 3] =
        some (exampleMachine.Throw (NewTypeError .kIncompatibleMethodReceiver
          (Object.string "Intl.NumberFormat.prototype.resolvedOptions") (Object.smi 3)))) ∧
    ((Object.heap ⟨.JS_OBJECT_TYPE, 7⟩).IsJSReceiver = true ∧
      Runtime_DateTimeFormatResolvedOptions exampleLibrary exampleMachine
          [Object.heap ⟨.JS_OBJECT_TYPE, 7⟩] =
        some (Object.heap ⟨.JS_OBJECT_TYPE, 23⟩,
          { isolate := exampleIsolate,
            trace := [Event.call .JSDateTimeFormat_ResolvedOptions] })) :=
  ⟨⟨rfl, (resolved_options_receiver_check exampleLibrary exampleMachine (Object.smi 3)).2.2.1
      rfl⟩,
   ⟨rfl, ((resolved_options_receiver_check exampleLibrary exampleMachine
      (Object.heap ⟨.JS_OBJECT_TYPE, 7⟩)).2.2.2 rfl).1⟩⟩

/-- C3: `Runtime_PluralRulesSelect` throws a TypeError itself exactly when the receiver is
not a `JSPluralRules`, whatever the number, and then does nothing but throw (the resolver
is not called); on a `JSPluralRules` receiver it calls `JSPluralRules::ResolvePlural` once
and returns its category, or the failure sentinel when the call yields nothing. -/
theorem plural_rules_select_contract (lib : Library) (m : Machine) (receiver number : Object) :
    ((∃ e, e.kind = ErrorKind.TypeError ∧
        Runtime_PluralRulesSelect lib m [receiver, number] = some (m.Throw e)) ↔
      receiver.IsJSPluralRules = false) ∧
    (receiver.IsJSPluralRules = false →
      Runtime_PluralRulesSelect lib m [receiver, number] =
        some (Object.exception,
          { isolate := { m.isolate with
              pending_exception := some (NewTypeError .kIncompatibleMethodReceiver
                (Object.string "Intl.PluralRules.prototype.select") receiver) },
            trace := m.trace ++ [Event.throw (NewTypeError .kIncompatibleMethodReceiver
                (Object.string "Intl.PluralRules.prototype.select") receiver)] })) ∧
    (receiver.IsJSPluralRules = true →
      Runtime_PluralRulesSelect lib m [receiver, number] =
        some (match (lib.JSPluralRules_ResolvePlural m.isolate receiver number).1 with
              | none => Object.exception
              | some category => Object.string category,
          { isolate := (lib.JSPluralRules_ResolvePlural m.isolate receiver number).2,
            trace := m.trace ++ [Event.call .JSPluralRules_ResolvePlural] })) := by
  rw [Runtime_PluralRulesSelect_eval]
  cases h : receiver.IsJSPluralRules
  · simp only [Bool.false_eq_true, if_false, false_implies, and_true, iff_true, true_implies]
    exact ⟨⟨_, rfl, rfl⟩, rfl⟩
  · simp only [if_true, Bool.true_eq_false, iff_false, not_exists, not_and, false_implies,
      true_implies, and_true, reduceCtorEq]
    exact fun e _ => throw_ne_calls m e _ _ _ []

/-- Witness of C3: a plural-rules receiver with the number 1 yields the category `one`,
and a receiver that is a plain object is rejected. -/
theorem plural_rules_select_contract_witness :
    ((Object.heap ⟨.JS_OBJECT_TYPE, 7⟩).IsJSPluralRules = false ∧
      Runtime_PluralRulesSelect exampleLibrary exampleMachine
          [Object.heap ⟨.JS_OBJECT_TYPE, 7⟩, Object.smi 1] =
        some (Object.exception,
          { isolate := { exampleIsolate with
              pending_exception := some (NewTypeError .kIncompatibleMethodReceiver
                (Object.string "Intl.PluralRules.prototype.select")
                (Object.heap ⟨.JS_OBJECT_TYPE, 7⟩)) },
            trace := [Event.throw (NewTypeError .kIncompatibleMethodReceiver
                (Object.string "Intl.PluralRules.prototype.select")
                (Object.heap ⟨.JS_OBJECT_TYPE, 7⟩))] })) ∧
    ((Object.heap ⟨.JS_INTL_PLURAL_RULES_TYPE, 6⟩).IsJSPluralRules = true ∧
      Runtime_PluralRulesSelect exampleLibrary exampleMachine
          [Object.heap ⟨.JS_INTL_PLURAL_RULES_TYPE, 6⟩, Object.smi 1] =
        some (Object.string "one",
          { isolate := exampleIsolate,
            trace := [Event.call .JSPluralRules_ResolvePlural] })) :=
  ⟨⟨rfl, (plural_rules_select_contract exampleLibrary exampleMachine
      (Object.heap ⟨.JS_OBJECT_TYPE, 7⟩) (Object.smi 1)).2.1 rfl⟩,
   ⟨rfl, (plural_rules_select_contract exampleLibrary exampleMachine
      (Object.heap ⟨.JS_INTL_PLURAL_RULES_TYPE, 6⟩) (Object.smi 1)).2.2 rfl⟩⟩

/-- A handler that either passes on to external routines or throws one fixed error
appends no other thrown error to the trace. -/
theorem thrown_eq_of_guard (m : Machine) (out pass : Option (Object × Machine))
    (expected : JSError) (c : Bool)
    (hout : out = if c = true then pass else some (m.Throw expected))
    (hpass : ∀ v m', pass = some (v, m') → ∃ rs : List Routine,
      m'.trace = m.trace ++ rs.map Event.call)
    (v : Object) (m' : Machine) (e : JSError) (hrun : out = some (v, m'))
    (hmem : Event.throw e ∈ m'.trace.drop m.trace.length) : c = false ∧ e = expected := by
  cases c
  · simp only [Bool.false_eq_true, if_false] at hout
    rw [hout] at hrun
    simp only [Machine.Throw, Option.some.injEq, Prod.mk.injEq] at hrun
    rw [← hrun.2] at hmem
    simp only [drop_trace_append, List.mem_singleton, Event.throw.injEq] at hmem
    exact ⟨rfl, hmem⟩
  · simp only [if_true] at hout
    rw [hout] at hrun
    obtain ⟨rs, hrs⟩ := hpass v m' hrun
    rw [hrs, drop_trace_append] at hmem
    exact absurd hmem (throw_not_mem_calls e rs)

/-- C1, as the code has it: `Runtime_CollatorResolvedOptions` throws the TypeError for every
argument that is not a `JSCollator` and returns the resolved options of every `JSCollator`.
`Runtime_DateTimeFormatResolvedOptions` and `Runtime_NumberFormatResolvedOptions` throw the
TypeError themselves only for an argument that is not a `JSReceiver`; a `JSReceiver` of any
type is handed to the library, and what is returned (resolved options or the failure
sentinel) is what the library decides. -/
theorem resolved_options_type_errors (lib : Library) (m : Machine) (o : Object) :
    Runtime_CollatorResolvedOptions lib m [o] =
      (if o.IsJSCollator then
        some (Object.heap (lib.JSCollator_ResolvedOptions m.isolate o).1,
          { isolate := (lib.JSCollator_ResolvedOptions m.isolate o).2,
            trace := m.trace ++ [Event.call .JSCollator_ResolvedOptions] })
      else
        some (m.Throw (NewTypeError .kIncompatibleMethodReceiver
          (Object.string "Intl.Collator.prototype.resolvedOptions") o))) ∧
    Runtime_DateTimeFormatResolvedOptions lib m [o] =
      (if o.IsJSReceiver then
        some (match (lib.JSDateTimeFormat_ResolvedOptions m.isolate o).1 with
              | none => Object.exception
              | some r => Object.heap r,
          { isolate := (lib.JSDateTimeFormat_ResolvedOptions m.isolate o).2,
            trace := m.trace ++ [Event.call .JSDateTimeFormat_ResolvedOptions] })
      else
        some (m.Throw (NewTypeError .kIncompatibleMethodReceiver
          (Object.string "Intl.DateTimeFormat.prototype.resolvedOptions") o))) ∧
    Runtime_NumberFormatResolvedOptions lib m [o] =
      (if o.IsJSReceiver then
        match (lib.JSNumberFormat_UnwrapNumberFormat m.isolate o).1 with
        | none =>
          some (Object.exception,
            { isolate := (lib.JSNumberFormat_UnwrapNumberFormat m.isolate o).2,
              trace := m.trace ++ [Event.call .JSNumberFormat_UnwrapNumberFormat] })
        | some nf =>
          some (Object.heap (lib.JSNumberFormat_ResolvedOptions
                  (lib.JSNumberFormat_UnwrapNumberFormat m.isolate o).2 nf).1,
            { isolate := (lib.JSNumberFormat_ResolvedOptions
                  (lib.JSNumberFormat_UnwrapNumberFormat m.isolate o).2 nf).2,
              trace := m.trace ++ [Event.call .JSNumberFormat_UnwrapNumberFormat,
                Event.call .JSNumberFormat_ResolvedOptions] })
      else
        some (m.Throw (NewTypeError .kIncompatibleMethodReceiver
          (Object.string "Intl.NumberFormat.prototype.resolvedOptions") o))) :=
  ⟨Runtime_CollatorResolvedOptions_eval lib m o [],
   Runtime_DateTimeFormatResolvedOptions_eval lib m o [],
   Runtime_NumberFormatResolvedOptions_eval lib m o []⟩

/-- Counterexample to C1 as stated: the ordinary object at address 7 is not a number
format, yet `Runtime_NumberFormatResolvedOptions` throws nothing on it and returns the
resolved options, because the library unwraps it to the number format it carries. -/
theorem resolved_options_type_errors_counterexample :
    (Object.heap ⟨.JS_OBJECT_TYPE, 7⟩).IsJSNumberFormat = false ∧
    Runtime_NumberFormatResolvedOptions exampleLibrary exampleMachine
        [Object.heap ⟨.JS_OBJECT_TYPE, 7⟩] =
      some (Object.heap ⟨.JS_OBJECT_TYPE, 24⟩,
        { isolate := exampleIsolate,
          trace := [Event.call .JSNumberFormat_UnwrapNumberFormat,
            Event.call .JSNumberFormat_ResolvedOptions] }) ∧
    exampleIsolate.pending_exception = none :=
  ⟨rfl, rfl, rfl⟩

/-! ## Language tags -/

/-- Making the node just created weak leaves the table with one more node, a weak one. -/
theorem MakeWeak_Create (iso : Isolate) (object : Object) (parameter : Nat)
    (callback : WeakCallback) (type : WeakCallbackType) :
    GlobalHandles.MakeWeak (GlobalHandles.Create iso object).2 (GlobalHandles.Create iso object).1
      parameter callback type =
    { iso with
      global_handles :=
        iso.global_handles ++ [⟨object, some ⟨parameter, callback, type⟩⟩] } := by
  simp [GlobalHandles.MakeWeak, GlobalHandles.Create]

theorem Runtime_CreateDateTimeFormat_eval (lib : Library) (m : Machine)
    (locale options resolved : Object) (rest : Arguments)
    (h1 : locale.IsString = true) (h2 : options.IsJSObject = true)
    (h3 : resolved.IsJSObject = true) :
    Runtime_CreateDateTimeFormat lib m (locale :: options :: resolved :: rest) =
      match (lib.JSObject_New m.isolate m.isolate.intl_date_time_format_function
          m.isolate.intl_date_time_format_function).1 with
      | none =>
        some (Object.exception,
          { isolate := (lib.JSObject_New m.isolate m.isolate.intl_date_time_format_function
              m.isolate.intl_date_time_format_function).2,
            trace := m.trace ++ [Event.call .JSObject_New] })
      | some local_object =>
        match (lib.DateFormat_InitializeDateTimeFormat
            (lib.JSObject_New m.isolate m.isolate.intl_date_time_format_function
              m.isolate.intl_date_time_format_function).2 locale options resolved).1 with
        | none =>
          some (Object.exception,
            { isolate := (lib.DateFormat_InitializeDateTimeFormat
                (lib.JSObject_New m.isolate m.isolate.intl_date_time_format_function
                  m.isolate.intl_date_time_format_function).2 locale options resolved).2,
              trace := m.trace ++ [Event.call .JSObject_New,
                Event.call .DateFormat_InitializeDateTimeFormat] })
        | some date_format =>
          if date_format = 0 then none
          else
            some (Object.heap local_object,
              { isolate :=
                  { JSObject.SetEmbedderField (lib.DateFormat_InitializeDateTimeFormat
                      (lib.JSObject_New m.isolate m.isolate.intl_date_time_format_function
                        m.isolate.intl_date_time_format_function).2 locale options resolved).2
                      local_object lib.DateFormat_kSimpleDateFormatIndex date_format with
                    global_handles :=
                      (lib.DateFormat_InitializeDateTimeFormat
                        (lib.JSObject_New m.isolate m.isolate.intl_date_time_format_function
                          m.isolate.intl_date_time_format_function).2
                        locale options resolved).2.global_handles ++
                      [⟨Object.heap local_object,
                        some ⟨(lib.DateFormat_InitializeDateTimeFormat
                          (lib.JSObject_New m.isolate m.isolate.intl_date_time_format_function
                            m.isolate.intl_date_time_format_function).2
                          locale options resolved).2.global_handles.length,
                          .DateFormat_DeleteDateFormat, .kInternalFields⟩⟩] },
                trace := m.trace ++ [Event.call .JSObject_New,
                  Event.call .DateFormat_InitializeDateTimeFormat] }) := by
  simp only [Runtime_CreateDateTimeFormat, CONVERT_ARG_HANDLE_CHECKED_zero,
    CONVERT_ARG_HANDLE_CHECKED_succ, h1, h2, h3, if_true, Option.bind_eq_bind, Option.some_bind,
    Machine.call]
  cases (lib.JSObject_New m.isolate m.isolate.intl_date_time_format_function
          m.isolate.intl_date_time_format_function).1 with
  | none => rfl
  | some obj =>
    simp only []
    cases (lib.DateFormat_InitializeDateTimeFormat
            (lib.JSObject_New m.isolate m.isolate.intl_date_time_format_function
              m.isolate.intl_date_time_format_function).2 locale options resolved).1 with
    | none => simp
    | some p =>
      simp only []
      split
      · rfl
      · rw [MakeWeak_Create]
        simp only [List.append_assoc, List.singleton_append]
        rfl

/-- C7: `Runtime_CreateDateTimeFormat` attaches the native formatter and registers the
finalizer exactly when it succeeds.  If `JSObject::New` fails, the failure sentinel is
returned and the initializer is not called.  If the initializer yields nothing, the failure
sentinel is returned and the isolate is the one the initializer left (no embedder field
written, no handle registered).  If it yields a formatter (a pointer that is not null), the
wrapper is returned, its embedder field `kSimpleDateFormatIndex` holds that pointer, nothing
else on the heap changed, and the global-handle table has exactly one more node: a weak
handle to the wrapper with callback `DateFormat::DeleteDateFormat`. -/
theorem create_date_time_format_contract (lib : Library) (m : Machine)
    (locale options resolved : Object)
    (h1 : locale.IsString = true) (h2 : options.IsJSObject = true)
    (h3 : resolved.IsJSObject = true) :
    (∀ i1,
      lib.JSObject_New m.isolate m.isolate.intl_date_time_format_function
        m.isolate.intl_date_time_format_function = (none, i1) →
      Runtime_CreateDateTimeFormat lib m [locale, options, resolved] =
        some (Object.exception,
          { isolate := i1, trace := m.trace ++ [Event.call .JSObject_New] })) ∧
    (∀ local_object i1 i2,
      lib.JSObject_New m.isolate m.isolate.intl_date_time_format_function
        m.isolate.intl_date_time_format_function = (some local_object, i1) →
      lib.DateFormat_InitializeDateTimeFormat i1 locale options resolved = (none, i2) →
      Runtime_CreateDateTimeFormat lib m [locale, options, resolved] =
        some (Object.exception,
          { isolate := i2,
            trace := m.trace ++ [Event.call .JSObject_New,
              Event.call .DateFormat_InitializeDateTimeFormat] })) ∧
    (∀ local_object i1 date_format i2,
      lib.JSObject_New m.isolate m.isolate.intl_date_time_format_function
        m.isolate.intl_date_time_format_function = (some local_object, i1) →
      lib.DateFormat_InitializeDateTimeFormat i1 locale options resolved =
        (some date_format, i2) →
      date_format ≠ 0 →
      ∃ i3,
        Runtime_CreateDateTimeFormat lib m [locale, options, resolved] =
          some (Object.heap local_object,
            { isolate := i3,
              trace := m.trace ++ [Event.call .JSObject_New,
                Event.call .DateFormat_InitializeDateTimeFormat] }) ∧
        JSObject.GetEmbedderField i3 local_object lib.DateFormat_kSimpleDateFormatIndex =
          date_format ∧
        i3.global_handles =
          i2.global_handles ++
            [⟨Object.heap local_object,
              some ⟨i2.global_handles.length, .DateFormat_DeleteDateFormat,
                .kInternalFields⟩⟩] ∧
        (∀ index, index ≠ lib.DateFormat_kSimpleDateFormatIndex →
          JSObject.GetEmbedderField i3 local_object index =
            JSObject.GetEmbedderField i2 local_object index) ∧
        (∀ address, address ≠ local_object.address → i3.heap address = i2.heap address) ∧
        i3.heap_top = i2.heap_top ∧
        i3.pending_exception = i2.pending_exception ∧
        i3.eternal_handles = i2.eternal_handles) ∧
    (∀ local_object i1 i2,
      lib.JSObject_New m.isolate m.isolate.intl_date_time_format_function
        m.isolate.intl_date_time_format_function = (some local_object, i1) →
      lib.DateFormat_InitializeDateTimeFormat i1 locale options resolved = (some 0, i2) →
      Runtime_CreateDateTimeFormat lib m [locale, options, resolved] = none) := by
  rw [Runtime_CreateDateTimeFormat_eval lib m locale options resolved [] h1 h2 h3]
  refine ⟨?_, ?_, ?_, ?_⟩
  · intro i1 e1
    rw [e1]
  · intro obj i1 i2 e1 e2
    rw [e1]
    simp only []
    rw [e2]
  · intro obj i1 p i2 e1 e2 hp
    rw [e1]
    simp only []
    rw [e2]
    simp only [hp, if_false]
    refine ⟨_, rfl, ?_, rfl, ?_, ?_, rfl, rfl, rfl⟩
    · simp [JSObject.GetEmbedderField, JSObject.SetEmbedderField]
    · intro index hindex
      simp [JSObject.GetEmbedderField, JSObject.SetEmbedderField, Function.update_noteq hindex]
    · intro address haddress
      simp [JSObject.SetEmbedderField, Function.update_noteq haddress]
  · intro obj i1 i2 e1 e2
    rw [e1]
    simp only []
    rw [e2]
    simp

/-- Witness of C7 on the example library: for the locale `en-US` the wrapper allocated at
address 100 is returned with the formatter pointer 4096 in embedder field 0 and one weak
handle; for an unknown locale the initializer fails and nothing is attached. -/
theorem create_date_time_format_contract_witness :
    ((Object.string "en-US").IsString = true ∧
      (Object.heap ⟨.JS_OBJECT_TYPE, 10⟩).IsJSObject = true ∧
      (Object.heap ⟨.JS_OBJECT_TYPE, 11⟩).IsJSObject = true) ∧
    (∃ i3,
      Runtime_CreateDateTimeFormat exampleLibrary exampleMachine
          [Object.string "en-US", Object.heap ⟨.JS_OBJECT_TYPE, 10⟩,
            Object.heap ⟨.JS_OBJECT_TYPE, 11⟩] =
        some (Object.heap ⟨.JS_OBJECT_TYPE, 100⟩,
          { isolate := i3,
            trace := [Event.call .JSObject_New,
              Event.call .DateFormat_InitializeDateTimeFormat] }) ∧
      JSObject.GetEmbedderField i3 ⟨.JS_OBJECT_TYPE, 100⟩ 0 = 4096 ∧
      i3.global_handles =
        [⟨Object.heap ⟨.JS_OBJECT_TYPE, 100⟩,
          some ⟨0, .DateFormat_DeleteDateFormat, .kInternalFields⟩⟩]) ∧
    Runtime_CreateDateTimeFormat exampleLibrary exampleMachine
        [Object.string "xx", Object.heap ⟨.JS_OBJECT_TYPE, 10⟩,
          Object.heap ⟨.JS_OBJECT_TYPE, 11⟩] =
      some (Object.exception,
        { isolate := { exampleIsolate with
            heap_top := 101
            pending_exception := some (exampleFailure (Object.string "xx")) },
          trace := [Event.call .JSObject_New,
            Event.call .DateFormat_InitializeDateTimeFormat] }) :=
  ⟨⟨rfl, rfl, rfl⟩,
   (fun ⟨i3, h⟩ => ⟨i3, h.1, h.2.1, h.2.2.1⟩)
    ((create_date_time_format_contract exampleLibrary exampleMachine
      (Object.string "en-US") (Object.heap ⟨.JS_OBJECT_TYPE, 10⟩)
      (Object.heap ⟨.JS_OBJECT_TYPE, 11⟩) rfl rfl rfl).2.2.1
      ⟨.JS_OBJECT_TYPE, 100⟩ { exampleIsolate with heap_top := 101 } 4096
      { exampleIsolate with heap_top := 101 } rfl rfl (by decide)),
   (create_date_time_format_contract exampleLibrary exampleMachine
      (Object.string "xx") (Object.heap ⟨.JS_OBJECT_TYPE, 10⟩)
      (Object.heap ⟨.JS_OBJECT_TYPE, 11⟩) rfl rfl rfl).2.1
      ⟨.JS_OBJECT_TYPE, 100⟩ { exampleIsolate with heap_top := 101 }
      { exampleIsolate with
        heap_top := 101
        pending_exception := some (exampleFailure (Object.string "xx")) } rfl rfl⟩

/-! ## The date cache version -/

theorem Runtime_DateCacheVersion_enabled (m : Machine) (args : Arguments)
    (h : m.isolate.serializer_enabled = true) :
    Runtime_DateCacheVersion m args = some (Object.undefined_value, m) := by
  simp [Runtime_DateCacheVersion, h]

theorem Runtime_DateCacheVersion_create (m : Machine) (args : Arguments)
    (h : m.isolate.serializer_enabled = false)
    (hn : m.isolate.eternal_handles .DATE_CACHE_VERSION = none) :
    Runtime_DateCacheVersion m args =
      some (Object.smi 0,
        { m with
          isolate :=
            { m.isolate with
              heap := Function.update m.isolate.heap m.isolate.heap_top
                { prototype := none, properties := [], embedder_fields := fun _ => 0,
                  elements := [Object.smi 0] }
              heap_top := m.isolate.heap_top + 1
              eternal_handles := Function.update m.isolate.eternal_handles .DATE_CACHE_VERSION
                (some ⟨.FIXED_ARRAY_TYPE, m.isolate.heap_top⟩) } }) := by
  simp [Runtime_DateCacheVersion, h, hn, EternalHandles.Exists, EternalHandles.GetSingleton,
    EternalHandles.CreateSingleton, FixedArray.get, FixedArray.set, NewFixedArray]

theorem Runtime_DateCacheVersion_read (m : Machine) (args : Arguments)
    (h : m.isolate.serializer_enabled = false) (array : HeapObject)
    (hs : m.isolate.eternal_handles .DATE_CACHE_VERSION = some array) :
    Runtime_DateCacheVersion m args =
      match FixedArray.get m.isolate array 0 with
      | none => none
      | some v => some (v, m) := by
  simp [Runtime_DateCacheVersion, h, hs, EternalHandles.Exists, EternalHandles.GetSingleton,
    FixedArray.get]

/-- C10: `Runtime_DateCacheVersion` creates its singleton at most once and reads it back.
With the serializer enabled it returns undefined and changes nothing.  Otherwise, if the
`DATE_CACHE_VERSION` singleton does not exist, it allocates a one-element array holding 0,
registers it as the singleton and returns 0; if the singleton exists it changes nothing and
returns slot 0 of the array.  A call that follows a call returns the same value and leaves
the state as it found it. -/
theorem date_cache_version_contract (m : Machine) (args : Arguments) :
    (m.isolate.serializer_enabled = true →
      Runtime_DateCacheVersion m args = some (Object.undefined_value, m)) ∧
    (m.isolate.serializer_enabled = false →
      EternalHandles.Exists m.isolate .DATE_CACHE_VERSION = false →
      Runtime_DateCacheVersion m args =
        some (Object.smi 0,
          { m with
            isolate :=
              { m.isolate with
                heap := Function.update m.isolate.heap m.isolate.heap_top
                  { prototype := none, properties := [], embedder_fields := fun _ => 0,
                    elements := [Object.smi 0] }
                heap_top := m.isolate.heap_top + 1
                eternal_handles :=
                  Function.update m.isolate.eternal_handles .DATE_CACHE_VERSION
                    (some ⟨.FIXED_ARRAY_TYPE, m.isolate.heap_top⟩) } })) ∧
    (m.isolate.serializer_enabled = false →
      ∀ array v, EternalHandles.GetSingleton m.isolate .DATE_CACHE_VERSION = some array →
        FixedArray.get m.isolate array 0 = some v →
        Runtime_DateCacheVersion m args = some (v, m)) ∧
    (∀ v m' args', Runtime_DateCacheVersion m args = some (v, m') →
      Runtime_DateCacheVersion m' args' = some (v, m')) := by
  refine ⟨Runtime_DateCacheVersion_enabled m args, ?_, ?_, ?_⟩
  · intro h hn
    refine Runtime_DateCacheVersion_create m args h ?_
    simpa [EternalHandles.Exists] using hn
  · intro h array v hs hv
    rw [Runtime_DateCacheVersion_read m args h array hs, hv]
  · intro v m' args' hrun
    cases h : m.isolate.serializer_enabled with
    | true =>
      rw [Runtime_DateCacheVersion_enabled m args h] at hrun
      simp only [Option.some.injEq, Prod.mk.injEq] at hrun
      rw [← hrun.1, ← hrun.2]
      exact Runtime_DateCacheVersion_enabled m args' h
    | false =>
      cases hs : m.isolate.eternal_handles .DATE_CACHE_VERSION with
      | none =>
        rw [Runtime_DateCacheVersion_create m args h hs] at hrun
        simp only [Option.some.injEq, Prod.mk.injEq] at hrun
        rw [← hrun.1, ← hrun.2]
        simp [Runtime_DateCacheVersion, h, EternalHandles.Exists, EternalHandles.GetSingleton,
          FixedArray.get]
      | some array =>
        rw [Runtime_DateCacheVersion_read m args h array hs] at hrun
        cases hg : FixedArray.get m.isolate array 0 with
        | none => simp [hg] at hrun
        | some v0 =>
          simp only [hg, Option.some.injEq, Prod.mk.injEq] at hrun
          rw [← hrun.1, ← hrun.2, Runtime_DateCacheVersion_read m args' h array hs, hg]

/-- Witness of C10: the first call on the example machine creates the singleton at
address 100 and returns 0, and the call after it returns 0 again without allocating. -/
theorem date_cache_version_contract_witness :
    (exampleMachine.isolate.serializer_enabled = false ∧
      EternalHandles.Exists exampleMachine.isolate .DATE_CACHE_VERSION = false ∧
      (Runtime_DateCacheVersion exampleMachine []).map Prod.fst = some (Object.smi 0) ∧
      (Runtime_DateCacheVersion exampleMachine []).map (fun r => r.2.isolate.heap_top) =
        some 101) ∧
    ∀ v m', Runtime_DateCacheVersion exampleMachine [] = some (v, m') →
      Runtime_DateCacheVersion m' [] = some (v, m') :=
  ⟨⟨rfl, rfl,
    congrArg (Option.map Prod.fst)
      ((date_cache_version_contract exampleMachine []).2.1 rfl rfl),
    congrArg (Option.map (fun r => r.2.isolate.heap_top))
      ((date_cache_version_contract exampleMachine []).2.1 rfl rfl)⟩,
   fun v m' h => (date_cache_version_contract exampleMachine []).2.2.2 v m' [] h⟩

/-! ## Extension maps -/

/-- The macro `RETURN_RESULT_OR_FAILURE` around a call passes the result of the call
through, provided no dereferenced value is the failure sentinel. -/
theorem passesThrough_RETURN_RESULT_OR_FAILURE {α : Type} (deref : α → Object)
    (hderef : ∀ x, deref x ≠ Object.exception) (m m1 : Machine) (before : List Routine)
    (routine : Routine) (hnot : routine ∉ before)
    (htrace : m1.trace = m.trace ++ before.map Event.call)
    (f : Isolate → MaybeHandle α × Isolate) :
    PassesThrough deref m before routine (f m1.isolate)
      (RETURN_RESULT_OR_FAILURE deref (m1.call routine f)) := by
  unfold PassesThrough RETURN_RESULT_OR_FAILURE Machine.call
  cases hres : (f m1.isolate).1 with
  | none =>
    refine ⟨_, _, rfl, ?_, hnot, rfl, ?_, ?_⟩
    · simp [htrace]
    · simp
    · intro x hx; cases hx
  | some r =>
    refine ⟨_, _, rfl, ?_, hnot, rfl, ?_, ?_⟩
    · simp [htrace]
    · simp [hderef r]
    · intro x hx
      cases hx
      rfl

theorem Object.string_ne_exception (s : String) : Object.string s ≠ Object.exception := by
  simp [Object.exception]

theorem Object.heap_ne_exception (r : HeapObject) : Object.heap r ≠ Object.exception := by
  simp [Object.exception]

/-- C5: each pass-through handler, on a well-typed argument list, calls its library routine
exactly once, returns the failure sentinel if and only if that call yields nothing, and
otherwise returns the value of the call unchanged.  (The two case conversions first flatten
the string and hand the flattened string to the routine.) -/
theorem pass_through_handlers (lib : Library) (m : Machine)
    (list_format list service options required defaults s receiver constructor method
      check_legacy_constructor : Object) (type_int : Int)
    (hlist_format : list_format.IsJSListFormat = true) (hlist : list.IsJSArray = true)
    (hservice : service.IsString = true)
    (hrequired : required.IsString = true) (hdefaults : defaults.IsString = true)
    (hs : s.IsString = true)
    (hreceiver : receiver.IsJSReceiver = true) (hconstructor : constructor.IsJSFunction = true)
    (hmethod : method.IsString = true)
    (hlegacy : check_legacy_constructor.IsBoolean = true) :
    PassesThrough Object.string m [] .JSListFormat_FormatList
      (lib.JSListFormat_FormatList m.isolate list_format list)
      (Runtime_FormatList lib m [list_format, list]) ∧
    PassesThrough Object.heap m [] .JSListFormat_FormatListToParts
      (lib.JSListFormat_FormatListToParts m.isolate list_format list)
      (Runtime_FormatListToParts lib m [list_format, list]) ∧
    PassesThrough Object.heap m [] .Intl_AvailableLocalesOf
      (lib.Intl_AvailableLocalesOf m.isolate service)
      (Runtime_AvailableLocalesOf lib m [service]) ∧
    PassesThrough Object.heap m [] .JSDateTimeFormat_ToDateTimeOptions
      (lib.JSDateTimeFormat_ToDateTimeOptions m.isolate options
        (lib.String_ToCString required) (lib.String_ToCString defaults))
      (Runtime_ToDateTimeOptions lib m [options, required, defaults]) ∧
    PassesThrough Object.string m [.String_Flatten] .ConvertToLower
      (lib.ConvertToLower (Object.string (lib.String_Flatten m.isolate s).1)
        (lib.String_Flatten m.isolate s).2)
      (Runtime_StringToLowerCaseIntl lib m [s]) ∧
    PassesThrough Object.string m [.String_Flatten] .ConvertToUpper
      (lib.ConvertToUpper (Object.string (lib.String_Flatten m.isolate s).1)
        (lib.String_Flatten m.isolate s).2)
      (Runtime_StringToUpperCaseIntl lib m [s]) ∧
    PassesThrough Object.heap m [] .Intl_UnwrapReceiver
      (lib.Intl_UnwrapReceiver m.isolate receiver constructor (lib.Intl_TypeFromInt type_int)
        method check_legacy_constructor.IsTrue)
      (Runtime_IntlUnwrapReceiver lib m
        [receiver, Object.smi type_int, constructor, method, check_legacy_constructor]) := by
  refine ⟨?_, ?_, ?_, ?_, ?_, ?_, ?_⟩
  · simp only [Runtime_FormatList, CONVERT_ARG_HANDLE_CHECKED_zero,
      CONVERT_ARG_HANDLE_CHECKED_succ, hlist_format, hlist, if_true, Option.bind_eq_bind,
      Option.some_bind]
    exact passesThrough_RETURN_RESULT_OR_FAILURE _ Object.string_ne_exception m m []
      _ (by simp) (by simp) _
  · simp only [Runtime_FormatListToParts, CONVERT_ARG_HANDLE_CHECKED_zero,
      CONVERT_ARG_HANDLE_CHECKED_succ, hlist_format, hlist, if_true, Option.bind_eq_bind,
      Option.some_bind]
    exact passesThrough_RETURN_RESULT_OR_FAILURE _ Object.heap_ne_exception m m []
      _ (by simp) (by simp) _
  · simp only [Runtime_AvailableLocalesOf, CONVERT_ARG_HANDLE_CHECKED_zero, hservice, if_true,
      Option.bind_eq_bind, Option.some_bind]
    have key := passesThrough_RETURN_RESULT_OR_FAILURE Object.heap Object.heap_ne_exception
      m m [] .Intl_AvailableLocalesOf (by simp) (by simp) (lib.Intl_AvailableLocalesOf · service)
    unfold RETURN_RESULT_OR_FAILURE at key
    cases hres : (m.call Routine.Intl_AvailableLocalesOf
      (lib.Intl_AvailableLocalesOf · service)).1 <;> simp only [hres] at key ⊢ <;> exact key
  · simp only [Runtime_ToDateTimeOptions, CONVERT_ARG_HANDLE_CHECKED_zero,
      CONVERT_ARG_HANDLE_CHECKED_succ, Object.IsObject, hrequired, hdefaults, if_true,
      Option.bind_eq_bind, Option.some_bind]
    exact passesThrough_RETURN_RESULT_OR_FAILURE _ Object.heap_ne_exception m m []
      _ (by simp) (by simp) _
  · simp only [Runtime_StringToLowerCaseIntl, CONVERT_ARG_HANDLE_CHECKED_zero, hs, if_true,
      Option.bind_eq_bind, Option.some_bind]
    exact passesThrough_RETURN_RESULT_OR_FAILURE _ Object.string_ne_exception m
      (m.call .String_Flatten (lib.String_Flatten · s)).2 [.String_Flatten]
      _ (by simp) (by simp [Machine.call]) _
  · simp only [Runtime_StringToUpperCaseIntl, CONVERT_ARG_HANDLE_CHECKED_zero, hs, if_true,
      Option.bind_eq_bind, Option.some_bind]
    exact passesThrough_RETURN_RESULT_OR_FAILURE _ Object.string_ne_exception m
      (m.call .String_Flatten (lib.String_Flatten · s)).2 [.String_Flatten]
      _ (by simp) (by simp [Machine.call]) _
  · have hbool : CONVERT_BOOLEAN_ARG_CHECKED
        [receiver, Object.smi type_int, constructor, method, check_legacy_constructor] 4 =
        some check_legacy_constructor.IsTrue := by
      simp [CONVERT_BOOLEAN_ARG_CHECKED, hlegacy]
    have hsmi : CONVERT_SMI_ARG_CHECKED
        [receiver, Object.smi type_int, constructor, method, check_legacy_constructor] 1 =
        some type_int := by
      simp [CONVERT_SMI_ARG_CHECKED]
    simp only [Runtime_IntlUnwrapReceiver, CONVERT_ARG_HANDLE_CHECKED_zero,
      CONVERT_ARG_HANDLE_CHECKED_succ, hreceiver, hconstructor, hmethod, hbool, hsmi, if_true,
      Option.bind_eq_bind, Option.some_bind]
    exact passesThrough_RETURN_RESULT_OR_FAILURE _ Object.heap_ne_exception m m []
      _ (by simp) (by simp) _

/-- Witness of C5 on the example library: a list format applied to the array at address 20
returns the formatted string after one call of `JSListFormat::FormatList`, and applied to
another array returns the failure sentinel after one call. -/
theorem pass_through_handlers_witness :
    ((Object.heap ⟨.JS_INTL_LIST_FORMAT_TYPE, 19⟩).IsJSListFormat = true ∧
      (Object.heap ⟨.JS_ARRAY_TYPE, 20⟩).IsJSArray = true ∧
      (Object.string "collator").IsString = true ∧
      (Object.string "date").IsString = true ∧
      (Object.string "ABC").IsString = true ∧
      (Object.heap ⟨.JS_OBJECT_TYPE, 7⟩).IsJSReceiver = true ∧
      (Object.heap ⟨.JS_FUNCTION_TYPE, 1⟩).IsJSFunction = true ∧
      (Object.oddball .true_value).IsBoolean = true) ∧
    PassesThrough Object.string exampleMachine [] .JSListFormat_FormatList
      (some "a, b and c", exampleIsolate)
      (Runtime_FormatList exampleLibrary exampleMachine
        [Object.heap ⟨.JS_INTL_LIST_FORMAT_TYPE, 19⟩, Object.heap ⟨.JS_ARRAY_TYPE, 20⟩]) ∧
    Runtime_FormatList exampleLibrary exampleMachine
        [Object.heap ⟨.JS_INTL_LIST_FORMAT_TYPE, 19⟩, Object.heap ⟨.JS_ARRAY_TYPE, 20⟩] =
      some (Object.string "a, b and c",
        { isolate := exampleIsolate, trace := [Event.call .JSListFormat_FormatList] }) ∧
    PassesThrough Object.string exampleMachine [] .JSListFormat_FormatList
      (none, { exampleIsolate with
        pending_exception := some (exampleFailure (Object.heap ⟨.JS_ARRAY_TYPE, 30⟩)) })
      (Runtime_FormatList exampleLibrary exampleMachine
        [Object.heap ⟨.JS_INTL_LIST_FORMAT_TYPE, 19⟩, Object.heap ⟨.JS_ARRAY_TYPE, 30⟩]) :=
  ⟨⟨rfl, rfl, rfl, rfl, rfl, rfl, rfl, rfl⟩,
   (pass_through_handlers exampleLibrary exampleMachine
      (Object.heap ⟨.JS_INTL_LIST_FORMAT_TYPE, 19⟩) (Object.heap ⟨.JS_ARRAY_TYPE, 20⟩)
      (Object.string "collator") (Object.heap ⟨.JS_OBJECT_TYPE, 10⟩) (Object.string "date")
      (Object.string "date") (Object.string "ABC") (Object.heap ⟨.JS_OBJECT_TYPE, 7⟩)
      (Object.heap ⟨.JS_FUNCTION_TYPE, 1⟩) (Object.string "format")
      (Object.oddball .true_value) 0 rfl rfl rfl rfl rfl rfl rfl rfl rfl rfl).1,
   rfl,
   (pass_through_handlers exampleLibrary exampleMachine
      (Object.heap ⟨.JS_INTL_LIST_FORMAT_TYPE, 19⟩) (Object.heap ⟨.JS_ARRAY_TYPE, 30⟩)
      (Object.string "collator") (Object.heap ⟨.JS_OBJECT_TYPE, 10⟩) (Object.string "date")
      (Object.string "date") (Object.string "ABC") (Object.heap ⟨.JS_OBJECT_TYPE, 7⟩)
      (Object.heap ⟨.JS_FUNCTION_TYPE, 1⟩) (Object.string "format")
      (Object.oddball .true_value) 0 rfl rfl rfl rfl rfl rfl rfl rfl rfl rfl).1⟩

/-! ## Errors thrown by the handlers -/

theorem RETURN_RESULT_OR_FAILURE_state {α : Type} (deref : α → Object)
    (r : MaybeHandle α × Machine) (v : Object) (m' : Machine)
    (h : RETURN_RESULT_OR_FAILURE deref r = some (v, m')) : m' = r.2 := by
  unfold RETURN_RESULT_OR_FAILURE at h
  split at h <;> simp only [Option.some.injEq, Prod.mk.injEq] at h <;> exact h.2.symm

theorem calls_FormatList (lib : Library) (m : Machine) (args : Arguments) (v : Object)
    (m' : Machine) (h : Runtime_FormatList lib m args = some (v, m')) :
    ∃ rs : List Routine, m'.trace = m.trace ++ rs.map Event.call := by
  simp only [Runtime_FormatList, Option.bind_eq_bind, Option.bind_eq_some] at h
  obtain ⟨_, -, _, -, h⟩ := h
  rw [RETURN_RESULT_OR_FAILURE_state _ _ _ _ h]
  exact ⟨[.JSListFormat_FormatList], rfl⟩

theorem calls_FormatListToParts (lib : Library) (m : Machine) (args : Arguments) (v : Object)
    (m' : Machine) (h : Runtime_FormatListToParts lib m args = some (v, m')) :
    ∃ rs : List Routine, m'.trace = m.trace ++ rs.map Event.call := by
  simp only [Runtime_FormatListToParts, Option.bind_eq_bind, Option.bind_eq_some] at h
  obtain ⟨_, -, _, -, h⟩ := h
  rw [RETURN_RESULT_OR_FAILURE_state _ _ _ _ h]
  exact ⟨[.JSListFormat_FormatListToParts], rfl⟩

theorem calls_CanonicalizeLanguageTag (lib : Library) (m : Machine) (args : Arguments)
    (v : Object) (m' : Machine)
    (h : Runtime_CanonicalizeLanguageTag lib m args = some (v, m')) :
    ∃ rs : List Routine, m'.trace = m.trace ++ rs.map Event.call := by
  simp only [Runtime_CanonicalizeLanguageTag, Option.bind_eq_bind, Option.bind_eq_some] at h
  obtain ⟨_, -, h⟩ := h
  split at h <;> simp only [Option.some.injEq, Prod.mk.injEq] at h <;>
    exact ⟨[.Intl_CanonicalizeLanguageTag], by rw [← h.2]; rfl⟩

theorem calls_AvailableLocalesOf (lib : Library) (m : Machine) (args : Arguments)
    (v : Object) (m' : Machine)
    (h : Runtime_AvailableLocalesOf lib m args = some (v, m')) :
    ∃ rs : List Routine, m'.trace = m.trace ++ rs.map Event.call := by
  simp only [Runtime_AvailableLocalesOf, Option.bind_eq_bind, Option.bind_eq_some] at h
  obtain ⟨_, -, h⟩ := h
  split at h <;> simp only [Option.some.injEq, Prod.mk.injEq] at h <;>
    exact ⟨[.Intl_AvailableLocalesOf], by rw [← h.2]; rfl⟩

theorem calls_GetDefaultICULocale (lib : Library) (m : Machine) (args : Arguments) (v : Object)
    (m' : Machine) (h : Runtime_GetDefaultICULocale lib m args = some (v, m')) :
    ∃ rs : List Routine, m'.trace = m.trace ++ rs.map Event.call := by
  simp only [Runtime_GetDefaultICULocale, Option.bind_eq_bind, Option.bind_eq_some] at h
  simp only [Option.some.injEq, Prod.mk.injEq] at h
  exact ⟨[.Intl_DefaultLocale], by rw [← h.2]; rfl⟩

theorem calls_DefineWEProperty (lib : Library) (m : Machine) (args : Arguments) (v : Object)
    (m' : Machine) (h : Runtime_DefineWEProperty lib m args = some (v, m')) :
    ∃ rs : List Routine, m'.trace = m.trace ++ rs.map Event.call := by
  simp only [Runtime_DefineWEProperty, Option.bind_eq_bind, Option.bind_eq_some] at h
  obtain ⟨_, -, _, -, _, -, h⟩ := h
  simp only [Option.some.injEq, Prod.mk.injEq] at h
  exact ⟨[.Intl_DefineWEProperty], by rw [← h.2]; rfl⟩

theorem calls_IsInitializedIntlObjectOfType (lib : Library) (m : Machine) (args : Arguments)
    (v : Object) (m' : Machine)
    (h : Runtime_IsInitializedIntlObjectOfType lib m args = some (v, m')) :
    ∃ rs : List Routine, m'.trace = m.trace ++ rs.map Event.call := by
  simp only [Runtime_IsInitializedIntlObjectOfType, Option.bind_eq_bind, Option.bind_eq_some] at h
  obtain ⟨_, -, _, -, h⟩ := h
  simp only [Option.some.injEq, Prod.mk.injEq] at h
  exact ⟨[.Intl_IsObjectOfType], by rw [← h.2]; rfl⟩

theorem calls_MarkAsInitializedIntlObjectOfType (lib : Library) (m : Machine)
    (args : Arguments) (v : Object) (m' : Machine)
    (h : Runtime_MarkAsInitializedIntlObjectOfType lib m args = some (v, m')) :
    ∃ rs : List Routine, m'.trace = m.trace ++ rs.map Event.call := by
  simp only [Runtime_MarkAsInitializedIntlObjectOfType, Option.bind_eq_bind,
    Option.bind_eq_some] at h
  obtain ⟨_, -, _, -, h⟩ := h
  simp only [Option.some.injEq, Prod.mk.injEq] at h
  exact ⟨[.JSObject_SetProperty], by rw [← h.2]; rfl⟩

theorem calls_CreateDateTimeFormat (lib : Library) (m : Machine) (args : Arguments) (v : Object)
    (m' : Machine) (h : Runtime_CreateDateTimeFormat lib m args = some (v, m')) :
    ∃ rs : List Routine, m'.trace = m.trace ++ rs.map Event.call := by
  simp only [Runtime_CreateDateTimeFormat, Option.bind_eq_bind, Option.bind_eq_some] at h
  obtain ⟨_, -, _, -, _, -, h⟩ := h
  split at h
  · simp only [Option.some.injEq, Prod.mk.injEq] at h
    exact ⟨[.JSObject_New], by rw [← h.2]; rfl⟩
  · split at h
    · simp only [Option.some.injEq, Prod.mk.injEq] at h
      exact ⟨[.JSObject_New, .DateFormat_InitializeDateTimeFormat],
        by rw [← h.2]; simp [Machine.call]⟩
    · split at h
      · cases h
      · simp only [Option.some.injEq, Prod.mk.injEq] at h
        exact ⟨[.JSObject_New, .DateFormat_InitializeDateTimeFormat],
          by rw [← h.2]; simp [Machine.call]⟩

theorem calls_ParseExtension (lib : Library) (m : Machine) (args : Arguments) (v : Object)
    (m' : Machine) (h : Runtime_ParseExtension lib m args = some (v, m')) :
    ∃ rs : List Routine, m'.trace = m.trace ++ rs.map Event.call := by
  simp only [Runtime_ParseExtension, Option.bind_eq_bind, Option.bind_eq_some] at h
  obtain ⟨_, -, h⟩ := h
  simp only [Option.some.injEq, Prod.mk.injEq] at h
  exact ⟨[.Intl_ParseExtension], by rw [← h.2]; rfl⟩

theorem calls_ToDateTimeOptions (lib : Library) (m : Machine) (args : Arguments) (v : Object)
    (m' : Machine) (h : Runtime_ToDateTimeOptions lib m args = some (v, m')) :
    ∃ rs : List Routine, m'.trace = m.trace ++ rs.map Event.call := by
  simp only [Runtime_ToDateTimeOptions, Option.bind_eq_bind, Option.bind_eq_some] at h
  obtain ⟨_, -, _, -, _, -, h⟩ := h
  rw [RETURN_RESULT_OR_FAILURE_state _ _ _ _ h]
  exact ⟨[.JSDateTimeFormat_ToDateTimeOptions], rfl⟩

theorem calls_StringToLowerCaseIntl (lib : Library) (m : Machine) (args : Arguments) (v : Object)
    (m' : Machine) (h : Runtime_StringToLowerCaseIntl lib m args = some (v, m')) :
    ∃ rs : List Routine, m'.trace = m.trace ++ rs.map Event.call := by
  simp only [Runtime_StringToLowerCaseIntl, Option.bind_eq_bind, Option.bind_eq_some] at h
  obtain ⟨_, -, h⟩ := h
  rw [RETURN_RESULT_OR_FAILURE_state _ _ _ _ h]
  exact ⟨[.String_Flatten, .ConvertToLower], by simp [Machine.call]⟩

theorem calls_StringToUpperCaseIntl (lib : Library) (m : Machine) (args : Arguments) (v : Object)
    (m' : Machine) (h : Runtime_StringToUpperCaseIntl lib m args = some (v, m')) :
    ∃ rs : List Routine, m'.trace = m.trace ++ rs.map Event.call := by
  simp only [Runtime_StringToUpperCaseIntl, Option.bind_eq_bind, Option.bind_eq_some] at h
  obtain ⟨_, -, h⟩ := h
  rw [RETURN_RESULT_OR_FAILURE_state _ _ _ _ h]
  exact ⟨[.String_Flatten, .ConvertToUpper], by simp [Machine.call]⟩

theorem calls_DateCacheVersion (m : Machine) (args : Arguments) (v : Object)
    (m' : Machine) (h : Runtime_DateCacheVersion m args = some (v, m')) :
    ∃ rs : List Routine, m'.trace = m.trace ++ rs.map Event.call := by
  refine ⟨[], ?_⟩
  cases hse : m.isolate.serializer_enabled with
  | true =>
    rw [Runtime_DateCacheVersion_enabled m args hse] at h
    simp only [Option.some.injEq, Prod.mk.injEq] at h
    rw [← h.2]; simp
  | false =>
    cases hs : m.isolate.eternal_handles .DATE_CACHE_VERSION with
    | none =>
      rw [Runtime_DateCacheVersion_create m args hse hs] at h
      simp only [Option.some.injEq, Prod.mk.injEq] at h
      rw [← h.2]; simp
    | some array =>
      rw [Runtime_DateCacheVersion_read m args hse array hs] at h
      split at h
      · cases h
      · simp only [Option.some.injEq, Prod.mk.injEq] at h
        rw [← h.2]; simp

theorem calls_IntlUnwrapReceiver (lib : Library) (m : Machine) (args : Arguments) (v : Object)
    (m' : Machine) (h : Runtime_IntlUnwrapReceiver lib m args = some (v, m')) :
    ∃ rs : List Routine, m'.trace = m.trace ++ rs.map Event.call := by
  simp only [Runtime_IntlUnwrapReceiver, Option.bind_eq_bind, Option.bind_eq_some] at h
  obtain ⟨_, -, _, -, _, -, _, -, _, -, h⟩ := h
  rw [RETURN_RESULT_OR_FAILURE_state _ _ _ _ h]
  exact ⟨[.Intl_UnwrapReceiver], rfl⟩

/-- A run that only called external routines threw nothing itself. -/
theorem no_throw_of_calls (m m' : Machine) (e : JSError)
    (h : ∃ rs : List Routine, m'.trace = m.trace ++ rs.map Event.call) :
    Event.throw e ∉ m'.trace.drop m.trace.length := by
  obtain ⟨rs, hrs⟩ := h
  rw [hrs, drop_trace_append]
  exact throw_not_mem_calls e rs

theorem thrown_DateTimeFormatResolvedOptions (lib : Library) (m : Machine) (args : Arguments)
    (v : Object) (m' : Machine) (e : JSError)
    (hrun : Runtime_DateTimeFormatResolvedOptions lib m args = some (v, m'))
    (hmem : Event.throw e ∈ m'.trace.drop m.trace.length) :
    ∃ receiver, args[0]? = some receiver ∧
      e = NewTypeError .kIncompatibleMethodReceiver
        (Object.string "Intl.DateTimeFormat.prototype.resolvedOptions") receiver := by
  cases args with
  | nil => simp [Runtime_DateTimeFormatResolvedOptions] at hrun
  | cons o rest =>
    refine ⟨o, by simp, (thrown_eq_of_guard m _ _ _ _
      (Runtime_DateTimeFormatResolvedOptions_eval lib m o rest) ?_ v m' e hrun hmem).2⟩
    intro v1 m1 h1
    simp only [Option.some.injEq, Prod.mk.injEq] at h1
    exact ⟨[.JSDateTimeFormat_ResolvedOptions], by rw [← h1.2]; rfl⟩

theorem thrown_NumberFormatResolvedOptions (lib : Library) (m : Machine) (args : Arguments)
    (v : Object) (m' : Machine) (e : JSError)
    (hrun : Runtime_NumberFormatResolvedOptions lib m args = some (v, m'))
    (hmem : Event.throw e ∈ m'.trace.drop m.trace.length) :
    ∃ receiver, args[0]? = some receiver ∧
      e = NewTypeError .kIncompatibleMethodReceiver
        (Object.string "Intl.NumberFormat.prototype.resolvedOptions") receiver := by
  cases args with
  | nil => simp [Runtime_NumberFormatResolvedOptions] at hrun
  | cons o rest =>
    refine ⟨o, by simp, (thrown_eq_of_guard m _ _ _ _
      (Runtime_NumberFormatResolvedOptions_eval lib m o rest) ?_ v m' e hrun hmem).2⟩
    intro v1 m1 h1
    split at h1
    · simp only [Option.some.injEq, Prod.mk.injEq] at h1
      exact ⟨[.JSNumberFormat_UnwrapNumberFormat], by rw [← h1.2]; rfl⟩
    · simp only [Option.some.injEq, Prod.mk.injEq] at h1
      exact ⟨[.JSNumberFormat_UnwrapNumberFormat, .JSNumberFormat_ResolvedOptions],
        by rw [← h1.2]; rfl⟩

theorem thrown_CollatorResolvedOptions (lib : Library) (m : Machine) (args : Arguments)
    (v : Object) (m' : Machine) (e : JSError)
    (hrun : Runtime_CollatorResolvedOptions lib m args = some (v, m'))
    (hmem : Event.throw e ∈ m'.trace.drop m.trace.length) :
    ∃ receiver, args[0]? = some receiver ∧
      e = NewTypeError .kIncompatibleMethodReceiver
        (Object.string "Intl.Collator.prototype.resolvedOptions") receiver := by
  cases args with
  | nil => simp [Runtime_CollatorResolvedOptions] at hrun
  | cons o rest =>
    refine ⟨o, by simp, (thrown_eq_of_guard m _ _ _ _
      (Runtime_CollatorResolvedOptions_eval lib m o rest) ?_ v m' e hrun hmem).2⟩
    intro v1 m1 h1
    simp only [Option.some.injEq, Prod.mk.injEq] at h1
    exact ⟨[.JSCollator_ResolvedOptions], by rw [← h1.2]; rfl⟩

theorem thrown_PluralRulesSelect (lib : Library) (m : Machine) (args : Arguments)
    (v : Object) (m' : Machine) (e : JSError)
    (hrun : Runtime_PluralRulesSelect lib m args = some (v, m'))
    (hmem : Event.throw e ∈ m'.trace.drop m.trace.length) :
    ∃ receiver, args[0]? = some receiver ∧
      e = NewTypeError .kIncompatibleMethodReceiver
        (Object.string "Intl.PluralRules.prototype.select") receiver := by
  match args, hrun with
  | [], hrun => simp [Runtime_PluralRulesSelect] at hrun
  | [_], hrun => simp [Runtime_PluralRulesSelect, Object.IsObject] at hrun
  | o :: n :: rest, hrun =>
    refine ⟨o, rfl, (thrown_eq_of_guard m _ _ _ _
      (Runtime_PluralRulesSelect_eval lib m o n rest) ?_ v m' e hrun hmem).2⟩
    intro v1 m1 h1
    simp only [Option.some.injEq, Prod.mk.injEq] at h1
    exact ⟨[.JSPluralRules_ResolvePlural], by rw [← h1.2]; rfl⟩

/-- C2: the four handlers that reject a receiver throw a TypeError built from the template
`kIncompatibleMethodReceiver` with the name of their method as first argument and the
rejected receiver as second.  And every error that a handler of the file throws itself,
whatever the handler and its arguments, is such an error: the handler is one of those
four, the first argument of the error is the name of its method, and the second is the
receiver it was called on. -/
theorem incompatible_receiver_errors (lib : Library) (m : Machine) :
    (∀ o rest, o.IsJSReceiver = false →
      Runtime_DateTimeFormatResolvedOptions lib m (o :: rest) =
        some (m.Throw (NewTypeError .kIncompatibleMethodReceiver
          (Object.string "Intl.DateTimeFormat.prototype.resolvedOptions") o))) ∧
    (∀ o rest, o.IsJSReceiver = false →
      Runtime_NumberFormatResolvedOptions lib m (o :: rest) =
        some (m.Throw (NewTypeError .kIncompatibleMethodReceiver
          (Object.string "Intl.NumberFormat.prototype.resolvedOptions") o))) ∧
    (∀ o rest, o.IsJSCollator = false →
      Runtime_CollatorResolvedOptions lib m (o :: rest) =
        some (m.Throw (NewTypeError .kIncompatibleMethodReceiver
          (Object.string "Intl.Collator.prototype.resolvedOptions") o))) ∧
    (∀ o n rest, o.IsJSPluralRules = false →
      Runtime_PluralRulesSelect lib m (o :: n :: rest) =
        some (m.Throw (NewTypeError .kIncompatibleMethodReceiver
          (Object.string "Intl.PluralRules.prototype.select") o))) ∧
    (∀ (handler : Handler) args v m' e, handler.run lib m args = some (v, m') →
      Event.throw e ∈ m'.trace.drop m.trace.length →
      ∃ method receiver, handler.method = some method ∧ args[0]? = some receiver ∧
        e = NewTypeError .kIncompatibleMethodReceiver (Object.string method) receiver) := by
  refine ⟨?_, ?_, ?_, ?_, ?_⟩
  · intro o rest h
    rw [Runtime_DateTimeFormatResolvedOptions_eval, h]; rfl
  · intro o rest h
    rw [Runtime_NumberFormatResolvedOptions_eval, h]; rfl
  · intro o rest h
    rw [Runtime_CollatorResolvedOptions_eval, h]; rfl
  · intro o n rest h
    rw [Runtime_PluralRulesSelect_eval, h]; rfl
  · intro handler args v m' e hrun hmem
    cases handler with
    | FormatList =>
      exact absurd hmem (no_throw_of_calls m m' e (calls_FormatList lib m args v m' hrun))
    | FormatListToParts =>
      exact absurd hmem (no_throw_of_calls m m' e (calls_FormatListToParts lib m args v m' hrun))
    | CanonicalizeLanguageTag =>
      exact absurd hmem
        (no_throw_of_calls m m' e (calls_CanonicalizeLanguageTag lib m args v m' hrun))
    | AvailableLocalesOf =>
      exact absurd hmem (no_throw_of_calls m m' e (calls_AvailableLocalesOf lib m args v m' hrun))
    | GetDefaultICULocale =>
      exact absurd hmem (no_throw_of_calls m m' e (calls_GetDefaultICULocale lib m args v m' hrun))
    | DefineWEProperty =>
      exact absurd hmem (no_throw_of_calls m m' e (calls_DefineWEProperty lib m args v m' hrun))
    | IsInitializedIntlObjectOfType =>
      exact absurd hmem
        (no_throw_of_calls m m' e (calls_IsInitializedIntlObjectOfType lib m args v m' hrun))
    | MarkAsInitializedIntlObjectOfType =>
      exact absurd hmem
        (no_throw_of_calls m m' e (calls_MarkAsInitializedIntlObjectOfType lib m args v m' hrun))
    | CreateDateTimeFormat =>
      exact absurd hmem
        (no_throw_of_calls m m' e (calls_CreateDateTimeFormat lib m args v m' hrun))
    | DateTimeFormatResolvedOptions =>
      obtain ⟨receiver, h0, he⟩ :=
        thrown_DateTimeFormatResolvedOptions lib m args v m' e hrun hmem
      exact ⟨_, receiver, rfl, h0, he⟩
    | NumberFormatResolvedOptions =>
      obtain ⟨receiver, h0, he⟩ :=
        thrown_NumberFormatResolvedOptions lib m args v m' e hrun hmem
      exact ⟨_, receiver, rfl, h0, he⟩
    | CollatorResolvedOptions =>
      obtain ⟨receiver, h0, he⟩ := thrown_CollatorResolvedOptions lib m args v m' e hrun hmem
      exact ⟨_, receiver, rfl, h0, he⟩
    | ParseExtension =>
      exact absurd hmem (no_throw_of_calls m m' e (calls_ParseExtension lib m args v m' hrun))
    | PluralRulesSelect =>
      obtain ⟨receiver, h0, he⟩ := thrown_PluralRulesSelect lib m args v m' e hrun hmem
      exact ⟨_, receiver, rfl, h0, he⟩
    | ToDateTimeOptions =>
      exact absurd hmem (no_throw_of_calls m m' e (calls_ToDateTimeOptions lib m args v m' hrun))
    | StringToLowerCaseIntl =>
      exact absurd hmem
        (no_throw_of_calls m m' e (calls_StringToLowerCaseIntl lib m args v m' hrun))
    | StringToUpperCaseIntl =>
      exact absurd hmem
        (no_throw_of_calls m m' e (calls_StringToUpperCaseIntl lib m args v m' hrun))
    | DateCacheVersion =>
      exact absurd hmem (no_throw_of_calls m m' e (calls_DateCacheVersion m args v m' hrun))
    | IntlUnwrapReceiver =>
      exact absurd hmem (no_throw_of_calls m m' e (calls_IntlUnwrapReceiver lib m args v m' hrun))

/-- Witness of C2: a small integer is rejected by `Runtime_DateTimeFormatResolvedOptions`
with the named error, and the error that `Runtime_PluralRulesSelect` throws on an array
receiver is the one named after `Intl.PluralRules.prototype.select`. -/
theorem incompatible_receiver_errors_witness :
    ((Object.smi 3).IsJSReceiver = false ∧
      Runtime_DateTimeFormatResolvedOptions exampleLibrary exampleMachine [Object.smi 3] =
        some (exampleMachine.Throw (NewTypeError .kIncompatibleMethodReceiver
          (Object.string "Intl.DateTimeFormat.prototype.resolvedOptions") (Object.smi 3)))) ∧
    ∃ method receiver, Handler.PluralRulesSelect.method = some method ∧
      [Object.heap ⟨.JS_ARRAY_TYPE, 20⟩, Object.smi 1][0]? = some receiver ∧
      NewTypeError .kIncompatibleMethodReceiver
          (Object.string "Intl.PluralRules.prototype.select")
          (Object.heap ⟨.JS_ARRAY_TYPE, 20⟩) =
        NewTypeError .kIncompatibleMethodReceiver (Object.string method) receiver :=
  ⟨⟨rfl, (incompatible_receiver_errors exampleLibrary exampleMachine).1
      (Object.smi 3) [] rfl⟩,
   (incompatible_receiver_errors exampleLibrary exampleMachine).2.2.2.2
      Handler.PluralRulesSelect
      [Object.heap ⟨.JS_ARRAY_TYPE, 20⟩, Object.smi 1] Object.exception
      (exampleMachine.Throw (NewTypeError .kIncompatibleMethodReceiver
        (Object.string "Intl.PluralRules.prototype.select")
        (Object.heap ⟨.JS_ARRAY_TYPE, 20⟩))).2
      (NewTypeError .kIncompatibleMethodReceiver
        (Object.string "Intl.PluralRules.prototype.select")
        (Object.heap ⟨.JS_ARRAY_TYPE, 20⟩))
      rfl (List.mem_singleton.2 rfl)⟩

end V8
